import Mathlib

/-!
# FruityMesh connection message types

A verification development over `src/types/ConnectionMessageTypes.h`: the packed
(`#pragma pack(1)`) wire structures, the `SIZEOF_*` constants, the size assertions
and the message type tags.

The header declares data layouts only, so the embedding is a transcription of every
declaration as a value (`Struct`, a list of `Member`s in declaration order) together
with the layout rule the header relies on: with packing 1 every member is placed at the
next free byte, and adjacent bit-fields share a storage unit of their declared type as
long as they fit into it. Offsets and widths of the computed layout are in bits, counted
from the start of the struct in transmission order (little endian, least significant
bit first).
-/

namespace FruityMesh

/-! ## Types that come from `FmTypes.h` -/

/-- Byte widths of the integer typedefs the header takes from `FmTypes.h`. That file is
not part of the sources, so the widths are a parameter of every layout. -/
structure FmTypes where
  NodeId : Nat
  ClusterId : Nat
  ClusterSize : Nat
  NetworkId : Nat
  FmKeyId : Nat
  ModuleId : Nat
  VendorModuleId : Nat
  deriving DecidableEq, Repr

/-- Modelled from the spec: the typedefs of `FmTypes.h`, which is not among the sources.
Node identifiers are 16 bit (spec, data model); the remaining widths are the ones the
documented sizes of the handshake payloads and module headers are stated for. -/
def fmTypes : FmTypes :=
  { NodeId := 2, ClusterId := 4, ClusterSize := 2, NetworkId := 2,
    FmKeyId := 4, ModuleId := 1, VendorModuleId := 4 }

/-- The scalar types members are declared with: the fixed-width integers, `char`, the
`enum class ... : u8` types of the header and the typedefs of `FmTypes.h`. -/
inductive CType where
  | u8 | u16 | u32 | i16 | char
  | MessageType | RawDataProtocol | RawDataActionType | RawDataErrorType
  | RawDataErrorDestination | CapabilityActionType | CapabilityEntryType
  | TimeSyncType | EnrolledNodesType | TrackedAssetMessageEntryType
  | NodeId | ClusterId | ClusterSize | NetworkId | FmKeyId | ModuleId | VendorModuleId
  deriving DecidableEq, Repr

/-- Size in bytes of a scalar type (`sizeof`), the typedefs taken from `w`. -/
def CType.bytes (w : FmTypes) : CType → Nat
  | .u8 => 1 | .u16 => 2 | .u32 => 4 | .i16 => 2 | .char => 1
  | .MessageType => 1 | .RawDataProtocol => 1 | .RawDataActionType => 1
  | .RawDataErrorType => 1 | .RawDataErrorDestination => 1
  | .CapabilityActionType => 1 | .CapabilityEntryType => 1
  | .TimeSyncType => 1 | .EnrolledNodesType => 1 | .TrackedAssetMessageEntryType => 1
  | .NodeId => w.NodeId | .ClusterId => w.ClusterId | .ClusterSize => w.ClusterSize
  | .NetworkId => w.NetworkId | .FmKeyId => w.FmKeyId | .ModuleId => w.ModuleId
  | .VendorModuleId => w.VendorModuleId

/-! ## Struct declarations and the packed layout -/

/-- One member declaration of a struct:
`T name;`, `T name[len];` (a flexible array member `T name[]` has `len = 0`),
`T name : width;` and a member of struct type. -/
inductive Member where
  | field (name : String) (ty : CType)
  | array (name : String) (ty : CType) (len : Nat)
  | bits (name : String) (ty : CType) (width : Nat)
  | struct (name : String) (members : List Member)

/-- A struct declaration: its members in declaration order. -/
abbrev Struct := List Member

/-- One entry of a computed layout: the (dotted) member name, its offset in bits from the
start of the struct, the width in bits of one element and the number of elements
(1 unless the member is an array). -/
structure Slot where
  name : String
  offset : Nat
  width : Nat
  count : Nat
  deriving DecidableEq, Repr

/-- Layout position: `pos` is the bit offset of the next free byte, or of the open
bit-field storage unit when `unit` (its size in bits) is not 0; `used` counts the bits
already taken in that unit. -/
structure Cursor where
  pos : Nat
  unit : Nat
  used : Nat
  deriving DecidableEq, Repr

/-- Finish the open bit-field storage unit, if any: the next member starts behind it. -/
def Cursor.close (c : Cursor) : Cursor := ⟨c.pos + c.unit, 0, 0⟩

mutual
/-- Place one member with packing 1. A bit-field joins the open storage unit when that
unit has the size of its declared type and still has room; otherwise it opens a new unit
at the next free byte. Every other member closes the open unit and is placed at the next
free byte, without alignment padding. -/
def Member.place (w : FmTypes) (pre : String) (c : Cursor) : Member → List Slot × Cursor
  | .field n t =>
    let c := c.close
    ([⟨pre ++ n, c.pos, 8 * t.bytes w, 1⟩], ⟨c.pos + 8 * t.bytes w, 0, 0⟩)
  | .array n t len =>
    let c := c.close
    ([⟨pre ++ n, c.pos, 8 * t.bytes w, len⟩], ⟨c.pos + 8 * t.bytes w * len, 0, 0⟩)
  | .bits n t k =>
    if c.unit = 8 * t.bytes w ∧ c.used + k ≤ c.unit then
      ([⟨pre ++ n, c.pos + c.used, k, 1⟩], ⟨c.pos, c.unit, c.used + k⟩)
    else
      let c := c.close
      ([⟨pre ++ n, c.pos, k, 1⟩], ⟨c.pos, 8 * t.bytes w, k⟩)
  | .struct n ms =>
    let r := Member.placeAll w (pre ++ n ++ ".") c.close ms
    (r.1, r.2.close)
/-- Place the members of a struct one after the other. -/
def Member.placeAll (w : FmTypes) (pre : String) (c : Cursor) :
    List Member → List Slot × Cursor
  | [] => ([], c)
  | m :: ms =>
    let r := Member.place w pre c m
    let s := Member.placeAll w pre r.2 ms
    (r.1 ++ s.1, s.2)
end

/-- The packed layout of a struct: one slot per scalar, array or bit-field member, nested
structs flattened, in declaration order. -/
def layout (w : FmTypes) (s : Struct) : List Slot :=
  (Member.placeAll w "" ⟨0, 0, 0⟩ s).1

/-- Size of a struct in bytes under packing 1 (`sizeof`). -/
def sizeof (w : FmTypes) (s : Struct) : Nat :=
  (Member.placeAll w "" ⟨0, 0, 0⟩ s).2.close.pos / 8

mutual
/-- Number of bits a member declares: the size of its type, times the length for an
array, the width after the colon for a bit-field. -/
def Member.declaredBits (w : FmTypes) : Member → Nat
  | .field _ t => 8 * t.bytes w
  | .array _ t len => 8 * t.bytes w * len
  | .bits _ _ k => k
  | .struct _ ms => Member.declaredBitsAll w ms
/-- Sum of the declared bits of a list of members. -/
def Member.declaredBitsAll (w : FmTypes) : List Member → Nat
  | [] => 0
  | m :: ms => Member.declaredBits w m + Member.declaredBitsAll w ms
end

/-- Sum of the declared widths of all fields of a struct, in bits. -/
def declaredBits (w : FmTypes) (s : Struct) : Nat := Member.declaredBitsAll w s

/-- The first slot of a layout with the given name. -/
def slotOf (l : List Slot) (name : String) : Option Slot :=
  l.find? (fun s => s.name == name)

/-- Offset in bytes and size in bytes of a named member that starts on a byte boundary
and is a whole number of bytes long; `none` for other members and unknown names. -/
def byteSpan (l : List Slot) (name : String) : Option (Nat × Nat) :=
  match slotOf l name with
  | some s =>
    if s.offset % 8 = 0 ∧ (s.width * s.count) % 8 = 0 then
      some (s.offset / 8, s.width * s.count / 8)
    else none
  | none => none

/-- The shape of a layout: offset, element width and element count of every slot, the
member names left out. -/
def shape (l : List Slot) : List (Nat × Nat × Nat) :=
  l.map (fun s => (s.offset, s.width, s.count))

/-- What `STATIC_ASSERT_SIZE(T, size)` requires: `sizeof(T) == size`. -/
def STATIC_ASSERT_SIZE (w : FmTypes) (T : Struct) (size : Nat) : Prop :=
  sizeof w T = size

instance (w : FmTypes) (T : Struct) (size : Nat) : Decidable (STATIC_ASSERT_SIZE w T size) :=
  inferInstanceAs (Decidable (sizeof w T = size))

/-- Value an unsigned bit-field of `width` bits holds after `v` is assigned to it:
conversion to the field's type keeps the low `width` bits. -/
def storeBits (width v : Nat) : Nat := v % 2 ^ width

/-! ## Message types -/

/-- The enumerators of `enum class MessageType : u8`, in declaration order. The range
markers `MODULE_MESSAGES_START`, `MODULE_MESSAGES_END`, `RESERVED_BIT_START` and
`RESERVED_BIT_END` are enumerators of their own. -/
inductive MessageType where
  | INVALID
  | SPLIT_WRITE_CMD
  | SPLIT_WRITE_CMD_END
  | CLUSTER_WELCOME
  | CLUSTER_ACK_1
  | CLUSTER_ACK_2
  | CLUSTER_INFO_UPDATE
  | RECONNECT
  | ENCRYPT_CUSTOM_START
  | ENCRYPT_CUSTOM_ANONCE
  | ENCRYPT_CUSTOM_SNONCE
  | ENCRYPT_CUSTOM_DONE
  | UPDATE_TIMESTAMP
  | UPDATE_CONNECTION_INTERVAL
  | ASSET_LEGACY
  | CAPABILITY
  | ASSET_GENERIC
  | SIG_MESH_SIMPLE
  | MODULE_MESSAGES_START
  | MODULE_CONFIG
  | MODULE_TRIGGER_ACTION
  | MODULE_ACTION_RESPONSE
  | MODULE_GENERAL
  | MODULE_RAW_DATA
  | MODULE_RAW_DATA_LIGHT
  | COMPONENT_ACT
  | COMPONENT_SENSE
  | MODULE_MESSAGES_END
  | TIME_SYNC
  | DEAD_DATA
  | DATA_1
  | DATA_1_VITAL
  | CLC_DATA
  | RESERVED_BIT_START
  | RESERVED_BIT_END
  deriving DecidableEq, Repr

/-- The value the header assigns to each enumerator of `MessageType`. -/
def MessageType.toU8 : MessageType → Nat
  | .INVALID => 0
  | .SPLIT_WRITE_CMD => 16
  | .SPLIT_WRITE_CMD_END => 17
  | .CLUSTER_WELCOME => 20
  | .CLUSTER_ACK_1 => 21
  | .CLUSTER_ACK_2 => 22
  | .CLUSTER_INFO_UPDATE => 23
  | .RECONNECT => 24
  | .ENCRYPT_CUSTOM_START => 25
  | .ENCRYPT_CUSTOM_ANONCE => 26
  | .ENCRYPT_CUSTOM_SNONCE => 27
  | .ENCRYPT_CUSTOM_DONE => 28
  | .UPDATE_TIMESTAMP => 30
  | .UPDATE_CONNECTION_INTERVAL => 31
  | .ASSET_LEGACY => 32
  | .CAPABILITY => 33
  | .ASSET_GENERIC => 34
  | .SIG_MESH_SIMPLE => 35
  | .MODULE_MESSAGES_START => 50
  | .MODULE_CONFIG => 50
  | .MODULE_TRIGGER_ACTION => 51
  | .MODULE_ACTION_RESPONSE => 52
  | .MODULE_GENERAL => 53
  | .MODULE_RAW_DATA => 54
  | .MODULE_RAW_DATA_LIGHT => 55
  | .COMPONENT_ACT => 58
  | .COMPONENT_SENSE => 59
  | .MODULE_MESSAGES_END => 59
  | .TIME_SYNC => 60
  | .DEAD_DATA => 61
  | .DATA_1 => 80
  | .DATA_1_VITAL => 81
  | .CLC_DATA => 83
  | .RESERVED_BIT_START => 128
  | .RESERVED_BIT_END => 255

/-- Every enumerator of `MessageType`, in declaration order. -/
def MessageType.all : List MessageType :=
  [ .INVALID, .SPLIT_WRITE_CMD, .SPLIT_WRITE_CMD_END, .CLUSTER_WELCOME, .CLUSTER_ACK_1,
    .CLUSTER_ACK_2, .CLUSTER_INFO_UPDATE, .RECONNECT, .ENCRYPT_CUSTOM_START,
    .ENCRYPT_CUSTOM_ANONCE, .ENCRYPT_CUSTOM_SNONCE, .ENCRYPT_CUSTOM_DONE,
    .UPDATE_TIMESTAMP, .UPDATE_CONNECTION_INTERVAL, .ASSET_LEGACY, .CAPABILITY,
    .ASSET_GENERIC, .SIG_MESH_SIMPLE, .MODULE_MESSAGES_START, .MODULE_CONFIG,
    .MODULE_TRIGGER_ACTION, .MODULE_ACTION_RESPONSE, .MODULE_GENERAL, .MODULE_RAW_DATA,
    .MODULE_RAW_DATA_LIGHT, .COMPONENT_ACT, .COMPONENT_SENSE, .MODULE_MESSAGES_END,
    .TIME_SYNC, .DEAD_DATA, .DATA_1, .DATA_1_VITAL, .CLC_DATA, .RESERVED_BIT_START,
    .RESERVED_BIT_END ]

/-- The message types declared between `MODULE_MESSAGES_START` and
`MODULE_MESSAGES_END`. -/
def moduleMessages : List MessageType :=
  [ .MODULE_CONFIG, .MODULE_TRIGGER_ACTION, .MODULE_ACTION_RESPONSE, .MODULE_GENERAL,
    .MODULE_RAW_DATA, .MODULE_RAW_DATA_LIGHT, .COMPONENT_ACT, .COMPONENT_SENSE ]

/-- Bit `i` of a tag byte. -/
def bitOf (v i : Nat) : Bool := v / 2 ^ i % 2 = 1

/-- The enumerators of `enum class RawDataActionType : u8`. -/
inductive RawDataActionType where
  | START
  | START_RECEIVED
  | CHUNK
  | REPORT
  | ERROR_T
  | REPORT_DESIRED
  deriving DecidableEq, Repr

/-- The value the header assigns to each enumerator of `RawDataActionType`. -/
def RawDataActionType.toU8 : RawDataActionType → Nat
  | .START => 0
  | .START_RECEIVED => 1
  | .CHUNK => 2
  | .REPORT => 3
  | .ERROR_T => 4
  | .REPORT_DESIRED => 5

/-! ## Basic message headers -/

def SIZEOF_CONN_PACKET_HEADER : Nat := 5

def ConnPacketHeader : Struct :=
  [ .field "messageType" .MessageType,
    .field "sender" .NodeId,
    .field "receiver" .NodeId ]

def SIZEOF_CONN_PACKET_SPLIT_HEADER : Nat := 2

def ConnPacketSplitHeader : Struct :=
  [ .field "splitMessageType" .MessageType,
    .field "splitCounter" .u8 ]

/-! ## Packets relevant for clustering and cluster handshaking -/

def SIZEOF_CONN_PACKET_PAYLOAD_CLUSTER_WELCOME : Nat := 11

def SIZEOF_CONN_PACKET_PAYLOAD_CLUSTER_WELCOME_WITH_NETWORK_ID : Nat := 13

def ConnPacketPayloadClusterWelcome : Struct :=
  [ .field "clusterId" .ClusterId,
    .field "clusterSize" .ClusterSize,
    .field "meshWriteHandle" .u16,
    .field "hopsToSink" .ClusterSize,
    .field "preferredConnectionInterval" .u8,
    .field "networkId" .NetworkId ]

def SIZEOF_CONN_PACKET_CLUSTER_WELCOME : Nat :=
  SIZEOF_CONN_PACKET_HEADER + SIZEOF_CONN_PACKET_PAYLOAD_CLUSTER_WELCOME

def SIZEOF_CONN_PACKET_CLUSTER_WELCOME_WITH_NETWORK_ID : Nat :=
  SIZEOF_CONN_PACKET_HEADER + SIZEOF_CONN_PACKET_PAYLOAD_CLUSTER_WELCOME_WITH_NETWORK_ID

def ConnPacketClusterWelcome : Struct :=
  [ .struct "header" ConnPacketHeader,
    .struct "payload" ConnPacketPayloadClusterWelcome ]

def SIZEOF_CONN_PACKET_PAYLOAD_CLUSTER_ACK_1 : Nat := 3

def ConnPacketPayloadClusterAck1 : Struct :=
  [ .field "hopsToSink" .ClusterSize,
    .field "preferredConnectionInterval" .u8 ]

def SIZEOF_CONN_PACKET_CLUSTER_ACK_1 : Nat :=
  SIZEOF_CONN_PACKET_HEADER + SIZEOF_CONN_PACKET_PAYLOAD_CLUSTER_ACK_1

def ConnPacketClusterAck1 : Struct :=
  [ .struct "header" ConnPacketHeader,
    .struct "payload" ConnPacketPayloadClusterAck1 ]

def SIZEOF_CONN_PACKET_PAYLOAD_CLUSTER_ACK_2 : Nat := 8

def ConnPacketPayloadClusterAck2 : Struct :=
  [ .field "clusterId" .ClusterId,
    .field "clusterSize" .ClusterSize,
    .field "hopsToSink" .ClusterSize ]

def SIZEOF_CONN_PACKET_CLUSTER_ACK_2 : Nat :=
  SIZEOF_CONN_PACKET_HEADER + SIZEOF_CONN_PACKET_PAYLOAD_CLUSTER_ACK_2

def ConnPacketClusterAck2 : Struct :=
  [ .struct "header" ConnPacketHeader,
    .struct "payload" ConnPacketPayloadClusterAck2 ]

def SIZEOF_CONN_PACKET_PAYLOAD_CLUSTER_INFO_UPDATE : Nat := 9

def ConnPacketPayloadClusterInfoUpdate : Struct :=
  [ .field "newClusterId_deprecated" .ClusterId,
    .field "clusterSizeChange" .ClusterSize,
    .field "hopsToSink" .ClusterSize,
    .bits "connectionMasterBitHandover" .u8 1,
    .bits "counter" .u8 1,
    .bits "reserved" .u8 6 ]

def SIZEOF_CONN_PACKET_CLUSTER_INFO_UPDATE : Nat :=
  SIZEOF_CONN_PACKET_HEADER + SIZEOF_CONN_PACKET_PAYLOAD_CLUSTER_INFO_UPDATE

def ConnPacketClusterInfoUpdate : Struct :=
  [ .struct "header" ConnPacketHeader,
    .struct "payload" ConnPacketPayloadClusterInfoUpdate ]

def SIZEOF_CONN_PACKET_RECONNECT : Nat := SIZEOF_CONN_PACKET_HEADER

def ConnPacketReconnect : Struct :=
  [ .struct "header" ConnPacketHeader ]

/-! ## Packets for the MeshAccessConnection encryption handshake -/

def SIZEOF_CONN_PACKET_ENCRYPT_CUSTOM_START : Nat := SIZEOF_CONN_PACKET_HEADER + 6

def ConnPacketEncryptCustomStart : Struct :=
  [ .struct "header" ConnPacketHeader,
    .field "version" .u8,
    .field "fmKeyId" .FmKeyId,
    .bits "tunnelType" .u8 2,
    .bits "reserved" .u8 6 ]

def SIZEOF_CONN_PACKET_ENCRYPT_CUSTOM_ANONCE : Nat := SIZEOF_CONN_PACKET_HEADER + 8

def ConnPacketEncryptCustomANonce : Struct :=
  [ .struct "header" ConnPacketHeader,
    .array "anonce" .u32 2 ]

def SIZEOF_CONN_PACKET_ENCRYPT_CUSTOM_SNONCE : Nat := SIZEOF_CONN_PACKET_HEADER + 8

def ConnPacketEncryptCustomSNonce : Struct :=
  [ .struct "header" ConnPacketHeader,
    .array "snonce" .u32 2 ]

def SIZEOF_CONN_PACKET_ENCRYPT_CUSTOM_DONE : Nat := SIZEOF_CONN_PACKET_HEADER + 1

def ConnPacketEncryptCustomDone : Struct :=
  [ .struct "header" ConnPacketHeader,
    .field "status" .u8 ]

/-! ## Module packets -/

/-- The member list `CONN_PACKET_MODULE_ENTRIES` expands to. -/
def CONN_PACKET_MODULE_ENTRIES : List Member :=
  [ .struct "header" ConnPacketHeader,
    .field "moduleId" .ModuleId,
    .field "requestHandle" .u8,
    .field "actionType" .u8 ]

def SIZEOF_CONN_PACKET_MODULE : Nat := SIZEOF_CONN_PACKET_HEADER + 3

/-- `MAX_DATA_SIZE_PER_WRITE` comes from `FmTypes.h` and is a parameter here. The array
length is computed in `size_t`; the truncated subtraction agrees with it whenever the
declaration compiles. -/
def ConnPacketModule (MAX_DATA_SIZE_PER_WRITE : Nat) : Struct :=
  CONN_PACKET_MODULE_ENTRIES ++
  [ .array "data" .u8 (MAX_DATA_SIZE_PER_WRITE - SIZEOF_CONN_PACKET_HEADER - 4) ]

def ConnPacketModuleStart : Struct :=
  CONN_PACKET_MODULE_ENTRIES

def SIZEOF_CONN_PACKET_MODULE_VENDOR : Nat := SIZEOF_CONN_PACKET_HEADER + 6

def ConnPacketModuleVendor (MAX_DATA_SIZE_PER_WRITE : Nat) : Struct :=
  [ .struct "header" ConnPacketHeader,
    .field "moduleId" .VendorModuleId,
    .field "requestHandle" .u8,
    .field "actionType" .u8,
    .array "data" .u8 (MAX_DATA_SIZE_PER_WRITE - SIZEOF_CONN_PACKET_HEADER - 7) ]

def SIZEOF_COMPONENT_MESSAGE_HEADER : Nat := 12

def ComponentMessageHeader : Struct :=
  [ .struct "header" ConnPacketHeader,
    .field "moduleId" .ModuleId,
    .field "requestHandle" .u8,
    .field "actionType" .u8,
    .field "component" .u16,
    .field "registerAddress" .u16 ]

def SIZEOF_CONN_PACKET_COMPONENT_MESSAGE : Nat := 12

def ConnPacketComponentMessage : Struct :=
  [ .struct "componentHeader" ComponentMessageHeader,
    .array "payload" .u8 1 ]

def SIZEOF_COMPONENT_MESSAGE_HEADER_VENDOR : Nat := 15

def ComponentMessageHeaderVendor : Struct :=
  [ .struct "header" ConnPacketHeader,
    .field "moduleId" .VendorModuleId,
    .field "requestHandle" .u8,
    .field "actionType" .u8,
    .field "component" .u16,
    .field "registerAddress" .u16 ]

def SIZEOF_CONN_PACKET_COMPONENT_MESSAGE_VENDOR : Nat := 15

def ConnPacketComponentMessageVendor : Struct :=
  [ .struct "componentHeader" ComponentMessageHeaderVendor,
    .array "payload" .u8 1 ]

/-! ## Raw data packets -/

def RawDataHeader : Struct :=
  [ .struct "connHeader" ConnPacketHeader,
    .field "moduleId" .ModuleId,
    .field "requestHandle" .u8,
    .field "actionType" .RawDataActionType ]

def RawDataHeaderVendor : Struct :=
  [ .struct "connHeader" ConnPacketHeader,
    .field "moduleId" .VendorModuleId,
    .field "requestHandle" .u8,
    .field "actionType" .RawDataActionType ]

def SIZEOF_RAW_DATA_LIGHT_PACKET : Nat := SIZEOF_CONN_PACKET_HEADER + 3

def RawDataLight : Struct :=
  [ .struct "connHeader" ConnPacketHeader,
    .field "moduleId" .ModuleId,
    .field "requestHandle" .u8,
    .field "protocolId" .RawDataProtocol,
    .array "payload" .u8 1 ]

def SIZEOF_RAW_DATA_LIGHT_VENDOR_PACKET : Nat := SIZEOF_CONN_PACKET_HEADER + 6

def RawDataLightVendor : Struct :=
  [ .struct "connHeader" ConnPacketHeader,
    .field "moduleId" .VendorModuleId,
    .field "requestHandle" .u8,
    .field "protocolId" .RawDataProtocol,
    .array "payload" .u8 1 ]

def MAX_RAW_DATA_METADATA_SIZE : Nat := 40

def SIZEOF_RAW_DATA_START_PAYLOAD : Nat := 8

def RawDataStartPayload : Struct :=
  [ .bits "numChunks" .u32 24,
    .bits "protocolId" .u32 8,
    .field "fmKeyId" .u32,
    .array "metadata" .u8 0 ]

def RawDataErrorPayload : Struct :=
  [ .field "error" .RawDataErrorType,
    .field "destination" .RawDataErrorDestination ]

def SIZEOF_RAW_DATA_CHUNK_PAYLOAD : Nat := 4

def RawDataChunkPayload : Struct :=
  [ .bits "chunkId" .u32 24,
    .bits "reserved" .u32 8,
    .array "payload" .u8 1 ]

def RawDataReportPayload : Struct :=
  [ .array "missings" .u32 3 ]

/-- Modelled from the spec: the pairing of raw data action types with payload structs.
The header declares the action types and the payload structs but not which payload
follows which action type; that is applied by the raw data handling, which is not among
the sources. Following the spec, Start, Chunk and Error carry the payload of their name,
Report and Report-Desired both carry the report payload, and Start-Received carries
none. -/
def RawDataActionType.payload : RawDataActionType → Option Struct
  | .START => some RawDataStartPayload
  | .START_RECEIVED => none
  | .CHUNK => some RawDataChunkPayload
  | .REPORT => some RawDataReportPayload
  | .ERROR_T => some RawDataErrorPayload
  | .REPORT_DESIRED => some RawDataReportPayload

/-- Position of the bit that stands for index `i` when a list of `width`-bit words is read
as one mask: the word it is in and the bit inside that word. -/
def maskBit (width i : Nat) : Nat × Nat := (i / width, i % width)

/-! ## Capability reporting packets -/

def CapabilityEntry : Struct :=
  [ .field "type" .CapabilityEntryType,
    .array "manufacturer" .char 32,
    .array "modelName" .char 53,
    .array "revision" .char 32 ]

def CapabilityHeader : Struct :=
  [ .struct "header" ConnPacketHeader,
    .field "actionType" .CapabilityActionType ]

def CapabilityRequestedMessage : Struct :=
  [ .struct "header" CapabilityHeader ]

def CapabilityEntryMessage : Struct :=
  [ .struct "header" CapabilityHeader,
    .field "index" .u32,
    .struct "entry" CapabilityEntry ]

def CapabilityEndMessage : Struct :=
  [ .struct "header" CapabilityHeader,
    .field "amountOfCapabilities" .u32 ]

/-- The character array members of a struct, as (name, length) in declaration order,
members of nested structs not included. -/
def charArrays : Struct → List (String × Nat)
  | [] => []
  | .array n .char len :: ms => (n, len) :: charArrays ms
  | _ :: ms => charArrays ms

/-! ## Packets used for time synchronization -/

def SIZEOF_CONN_PACKET_UPDATE_TIMESTAMP : Nat := SIZEOF_CONN_PACKET_HEADER + 8

def connPacketUpdateTimestamp : Struct :=
  [ .struct "header" ConnPacketHeader,
    .field "timestampSec" .u32,
    .field "remainderTicks" .u16,
    .field "offset" .i16 ]

def TimeSyncHeader : Struct :=
  [ .struct "header" ConnPacketHeader,
    .field "type" .TimeSyncType ]

def TimeSyncInitial : Struct :=
  [ .struct "header" TimeSyncHeader,
    .field "syncTimeStamp" .u32,
    .field "timeSincSyncTimeStamp" .u32,
    .field "additionalTicks" .u32,
    .field "offset" .i16,
    .field "counter" .u32 ]

def TimeSyncInterNetwork : Struct :=
  [ .struct "header" TimeSyncHeader,
    .field "syncTimeStamp" .u32,
    .field "timeSincSyncTimeStamp" .u32,
    .field "additionalTicks" .u32,
    .field "offset" .i16 ]

def TimeSyncInitialReply : Struct :=
  [ .struct "header" TimeSyncHeader ]

def TimeSyncCorrection : Struct :=
  [ .struct "header" TimeSyncHeader,
    .field "correctionTicks" .u32 ]

def TimeSyncCorrectionReply : Struct :=
  [ .struct "header" TimeSyncHeader ]

/-! ## Layout properties -/

/-- Whether the slots follow one another without a gap, the first one at bit `o`. -/
def contiguousFrom (o : Nat) : List Slot → Bool
  | [] => true
  | s :: r => s.offset == o && contiguousFrom (o + s.width * s.count) r

/-- A struct is laid out without padding: its slots follow one another without a gap
from bit 0, and its size is the sum of the declared widths of its fields. -/
def NoPadding (w : FmTypes) (s : Struct) : Prop :=
  contiguousFrom 0 (layout w s) = true ∧ 8 * sizeof w s = declaredBits w s

/-- The slots of the packet header when it is the member `name` at the start of a
packet. -/
def headerSlots (name : String) : List Slot :=
  [ ⟨name ++ ".messageType", 0, 8, 1⟩,
    ⟨name ++ ".sender", 8, 16, 1⟩,
    ⟨name ++ ".receiver", 24, 16, 1⟩ ]

/-! ## Remaining declarations of the header -/

/-- The enumerators of `enum class RawDataErrorType : u8`. -/
inductive RawDataErrorType where
  | UNEXPECTED_END_OF_TRANSMISSION
  | NOT_IN_A_TRANSMISSION
  | MALFORMED_MESSAGE
  | START_OF_USER_DEFINED_ERRORS
  | LAST_ID
  deriving DecidableEq, Repr

/-- The value the header assigns to each enumerator of `RawDataErrorType`. -/
def RawDataErrorType.toU8 : RawDataErrorType → Nat
  | .UNEXPECTED_END_OF_TRANSMISSION => 0
  | .NOT_IN_A_TRANSMISSION => 1
  | .MALFORMED_MESSAGE => 2
  | .START_OF_USER_DEFINED_ERRORS => 200
  | .LAST_ID => 255

/-- The enumerators of `RawDataErrorType` that name one error each; the other two,
`START_OF_USER_DEFINED_ERRORS` and `LAST_ID`, delimit the range left to the user. -/
def protocolDefinedErrors : List RawDataErrorType :=
  [ .UNEXPECTED_END_OF_TRANSMISSION, .NOT_IN_A_TRANSMISSION, .MALFORMED_MESSAGE ]

/-- Whether an error code lies in the range the header leaves to the user, from
`START_OF_USER_DEFINED_ERRORS` to `LAST_ID`. -/
def isUserDefinedError (v : Nat) : Bool :=
  RawDataErrorType.START_OF_USER_DEFINED_ERRORS.toU8 ≤ v ∧ v ≤ RawDataErrorType.LAST_ID.toU8

/-- The enumerators of `enum class RawDataErrorDestination : u8`. -/
inductive RawDataErrorDestination where
  | SENDER
  | RECEIVER
  | BOTH
  deriving DecidableEq, Repr

/-- The value the header assigns to each enumerator of `RawDataErrorDestination`. -/
def RawDataErrorDestination.toU8 : RawDataErrorDestination → Nat
  | .SENDER => 1
  | .RECEIVER => 2
  | .BOTH => 3

def EnrolledNodesHeader : Struct :=
  [ .struct "header" ConnPacketHeader,
    .field "type" .EnrolledNodesType ]

def EnrolledNodesMessage : Struct :=
  [ .struct "header" EnrolledNodesHeader,
    .field "enrolledNodes" .u16 ]

def SIZEOF_CONN_PACKET_PAYLOAD_DATA_1 (MAX_DATA_SIZE_PER_WRITE : Nat) : Nat :=
  MAX_DATA_SIZE_PER_WRITE - SIZEOF_CONN_PACKET_HEADER

def ConnPacketPayloadData1 (MAX_DATA_SIZE_PER_WRITE : Nat) : Struct :=
  [ .field "length" .u8,
    .array "data" .u8 (SIZEOF_CONN_PACKET_PAYLOAD_DATA_1 MAX_DATA_SIZE_PER_WRITE - 1) ]

def SIZEOF_CONN_PACKET_DATA_1 (MAX_DATA_SIZE_PER_WRITE : Nat) : Nat :=
  SIZEOF_CONN_PACKET_HEADER + SIZEOF_CONN_PACKET_PAYLOAD_DATA_1 MAX_DATA_SIZE_PER_WRITE

def ConnPacketData1 (MAX_DATA_SIZE_PER_WRITE : Nat) : Struct :=
  [ .struct "header" ConnPacketHeader,
    .struct "payload" (ConnPacketPayloadData1 MAX_DATA_SIZE_PER_WRITE) ]

def SIZEOF_CONN_PACKET_PAYLOAD_CLC_DATA (MAX_DATA_SIZE_PER_WRITE : Nat) : Nat :=
  MAX_DATA_SIZE_PER_WRITE - SIZEOF_CONN_PACKET_HEADER

def ConnPacketPayloadClcData (MAX_DATA_SIZE_PER_WRITE : Nat) : Struct :=
  [ .array "data" .u8 (SIZEOF_CONN_PACKET_PAYLOAD_CLC_DATA MAX_DATA_SIZE_PER_WRITE) ]

def SIZEOF_CONN_PACKET_CLC_DATA (MAX_DATA_SIZE_PER_WRITE : Nat) : Nat :=
  SIZEOF_CONN_PACKET_HEADER + SIZEOF_CONN_PACKET_PAYLOAD_CLC_DATA MAX_DATA_SIZE_PER_WRITE

def ConnPacketDataClcData (MAX_DATA_SIZE_PER_WRITE : Nat) : Struct :=
  [ .struct "header" ConnPacketHeader,
    .struct "payload" (ConnPacketPayloadClcData MAX_DATA_SIZE_PER_WRITE) ]

def SIZEOF_CONN_PACKET_UPDATE_CONNECTION_INTERVAL : Nat := SIZEOF_CONN_PACKET_HEADER + 2

def ConnPacketUpdateConnectionInterval : Struct :=
  [ .struct "header" ConnPacketHeader,
    .field "newInterval" .u16 ]

/-- `SIZEOF_ADV_STRUCTURE_ASSET_SERVICE_DATA_PAYLOAD` is defined outside this header and is
a parameter here. -/
def PeriodicAssetMessageEntry (SIZEOF_ADV_STRUCTURE_ASSET_SERVICE_DATA_PAYLOAD : Nat) : Struct :=
  [ .bits "moving" .u8 1,
    .bits "hasFreeInConnection" .u8 1,
    .bits "interestedInConnection" .u8 1,
    .bits "moveMod" .u8 1,
    .bits "reservedBits" .u8 4,
    .field "nodeId" .NodeId,
    .field "lastRssi" .u8,
    .field "entryType" .TrackedAssetMessageEntryType,
    .array "payload" .u8 SIZEOF_ADV_STRUCTURE_ASSET_SERVICE_DATA_PAYLOAD ]

def SIZEOF_TRACKED_ASSET_MESSAGE_ENTRY : Nat := 12

def SIZEOF_TRACKED_ASSET_MESSAGE_WITH_CONN_PACKET_HEADER : Nat :=
  SIZEOF_TRACKED_ASSET_MESSAGE_ENTRY + SIZEOF_CONN_PACKET_HEADER

def StandstillAssetMessageEntry : Struct :=
  [ .bits "hasFreeInConnection" .u8 1,
    .bits "interestedInConnection" .u8 1,
    .bits "reservedBits" .u8 1,
    .bits "positionCounter" .u8 5,
    .field "nodeId" .NodeId,
    .field "avgRssi" .u8,
    .field "rssiCount" .u8 ]

def SIZEOF_STANDSTILL_ASSET_MESSAGE_ENTRY : Nat := 5

def SIZEOF_STANDSTILL_ASSET_MESSAGE_WITH_CONN_PACKET_HEADER : Nat :=
  SIZEOF_STANDSTILL_ASSET_MESSAGE_ENTRY + SIZEOF_CONN_PACKET_HEADER

/-! ## All declarations and size assertions of the header -/

/-- Every struct the header declares, with its name, in declaration order. -/
def declaredStructs (MAX_DATA_SIZE_PER_WRITE SIZEOF_ADV_STRUCTURE_ASSET_SERVICE_DATA_PAYLOAD : Nat) :
    List (String × Struct) :=
  [ ("ConnPacketHeader", ConnPacketHeader),
    ("ConnPacketSplitHeader", ConnPacketSplitHeader),
    ("ConnPacketPayloadClusterWelcome", ConnPacketPayloadClusterWelcome),
    ("ConnPacketClusterWelcome", ConnPacketClusterWelcome),
    ("ConnPacketPayloadClusterAck1", ConnPacketPayloadClusterAck1),
    ("ConnPacketClusterAck1", ConnPacketClusterAck1),
    ("ConnPacketPayloadClusterAck2", ConnPacketPayloadClusterAck2),
    ("ConnPacketClusterAck2", ConnPacketClusterAck2),
    ("ConnPacketPayloadClusterInfoUpdate", ConnPacketPayloadClusterInfoUpdate),
    ("ConnPacketClusterInfoUpdate", ConnPacketClusterInfoUpdate),
    ("ConnPacketReconnect", ConnPacketReconnect),
    ("ConnPacketEncryptCustomStart", ConnPacketEncryptCustomStart),
    ("ConnPacketEncryptCustomANonce", ConnPacketEncryptCustomANonce),
    ("ConnPacketEncryptCustomSNonce", ConnPacketEncryptCustomSNonce),
    ("ConnPacketEncryptCustomDone", ConnPacketEncryptCustomDone),
    ("ConnPacketModule", ConnPacketModule MAX_DATA_SIZE_PER_WRITE),
    ("ConnPacketModuleStart", ConnPacketModuleStart),
    ("ConnPacketModuleVendor", ConnPacketModuleVendor MAX_DATA_SIZE_PER_WRITE),
    ("ComponentMessageHeader", ComponentMessageHeader),
    ("ConnPacketComponentMessage", ConnPacketComponentMessage),
    ("ComponentMessageHeaderVendor", ComponentMessageHeaderVendor),
    ("ConnPacketComponentMessageVendor", ConnPacketComponentMessageVendor),
    ("RawDataHeader", RawDataHeader),
    ("RawDataHeaderVendor", RawDataHeaderVendor),
    ("RawDataLight", RawDataLight),
    ("RawDataLightVendor", RawDataLightVendor),
    ("RawDataStartPayload", RawDataStartPayload),
    ("RawDataErrorPayload", RawDataErrorPayload),
    ("RawDataChunkPayload", RawDataChunkPayload),
    ("RawDataReportPayload", RawDataReportPayload),
    ("CapabilityEntry", CapabilityEntry),
    ("CapabilityHeader", CapabilityHeader),
    ("CapabilityRequestedMessage", CapabilityRequestedMessage),
    ("CapabilityEntryMessage", CapabilityEntryMessage),
    ("CapabilityEndMessage", CapabilityEndMessage),
    ("connPacketUpdateTimestamp", connPacketUpdateTimestamp),
    ("TimeSyncHeader", TimeSyncHeader),
    ("TimeSyncInitial", TimeSyncInitial),
    ("TimeSyncInterNetwork", TimeSyncInterNetwork),
    ("TimeSyncInitialReply", TimeSyncInitialReply),
    ("TimeSyncCorrection", TimeSyncCorrection),
    ("TimeSyncCorrectionReply", TimeSyncCorrectionReply),
    ("EnrolledNodesHeader", EnrolledNodesHeader),
    ("EnrolledNodesMessage", EnrolledNodesMessage),
    ("ConnPacketPayloadData1", ConnPacketPayloadData1 MAX_DATA_SIZE_PER_WRITE),
    ("ConnPacketData1", ConnPacketData1 MAX_DATA_SIZE_PER_WRITE),
    ("ConnPacketPayloadClcData", ConnPacketPayloadClcData MAX_DATA_SIZE_PER_WRITE),
    ("ConnPacketDataClcData", ConnPacketDataClcData MAX_DATA_SIZE_PER_WRITE),
    ("ConnPacketUpdateConnectionInterval", ConnPacketUpdateConnectionInterval),
    ("PeriodicAssetMessageEntry",
      PeriodicAssetMessageEntry SIZEOF_ADV_STRUCTURE_ASSET_SERVICE_DATA_PAYLOAD),
    ("StandstillAssetMessageEntry", StandstillAssetMessageEntry) ]

/-- Every size assertion of the header, `STATIC_ASSERT_SIZE(T, size)` and
`static_assert(sizeof(T) == size, ...)`, as the pair of the struct and the asserted size,
in the order of the header. `sizeof(T::data)` of a `u8` array is its length. -/
def sizeAssertions (MAX_DATA_SIZE_PER_WRITE SIZEOF_ADV_STRUCTURE_ASSET_SERVICE_DATA_PAYLOAD : Nat) :
    List (Struct × Nat) :=
  [ (ConnPacketHeader, SIZEOF_CONN_PACKET_HEADER),
    (ConnPacketSplitHeader, SIZEOF_CONN_PACKET_SPLIT_HEADER),
    (ConnPacketPayloadClusterWelcome, SIZEOF_CONN_PACKET_PAYLOAD_CLUSTER_WELCOME_WITH_NETWORK_ID),
    (ConnPacketClusterWelcome, SIZEOF_CONN_PACKET_CLUSTER_WELCOME_WITH_NETWORK_ID),
    (ConnPacketPayloadClusterAck1, SIZEOF_CONN_PACKET_PAYLOAD_CLUSTER_ACK_1),
    (ConnPacketClusterAck1, SIZEOF_CONN_PACKET_CLUSTER_ACK_1),
    (ConnPacketPayloadClusterAck2, SIZEOF_CONN_PACKET_PAYLOAD_CLUSTER_ACK_2),
    (ConnPacketClusterAck2, SIZEOF_CONN_PACKET_CLUSTER_ACK_2),
    (ConnPacketPayloadClusterInfoUpdate, SIZEOF_CONN_PACKET_PAYLOAD_CLUSTER_INFO_UPDATE),
    (ConnPacketClusterInfoUpdate, SIZEOF_CONN_PACKET_CLUSTER_INFO_UPDATE),
    (ConnPacketReconnect, SIZEOF_CONN_PACKET_RECONNECT),
    (ConnPacketEncryptCustomStart, SIZEOF_CONN_PACKET_ENCRYPT_CUSTOM_START),
    (ConnPacketEncryptCustomANonce, SIZEOF_CONN_PACKET_ENCRYPT_CUSTOM_ANONCE),
    (ConnPacketEncryptCustomSNonce, SIZEOF_CONN_PACKET_ENCRYPT_CUSTOM_SNONCE),
    (ConnPacketEncryptCustomDone, SIZEOF_CONN_PACKET_ENCRYPT_CUSTOM_DONE),
    (ConnPacketModule MAX_DATA_SIZE_PER_WRITE,
      SIZEOF_CONN_PACKET_MODULE + (MAX_DATA_SIZE_PER_WRITE - SIZEOF_CONN_PACKET_HEADER - 4)),
    (ConnPacketModuleStart, SIZEOF_CONN_PACKET_MODULE),
    (ConnPacketModuleVendor MAX_DATA_SIZE_PER_WRITE,
      SIZEOF_CONN_PACKET_MODULE_VENDOR
        + (MAX_DATA_SIZE_PER_WRITE - SIZEOF_CONN_PACKET_HEADER - 7)),
    (ComponentMessageHeader, SIZEOF_COMPONENT_MESSAGE_HEADER),
    (ConnPacketComponentMessage, SIZEOF_CONN_PACKET_COMPONENT_MESSAGE + 1),
    (ComponentMessageHeaderVendor, SIZEOF_COMPONENT_MESSAGE_HEADER_VENDOR),
    (ConnPacketComponentMessageVendor, SIZEOF_CONN_PACKET_COMPONENT_MESSAGE_VENDOR + 1),
    (RawDataHeader, SIZEOF_CONN_PACKET_MODULE),
    (RawDataHeaderVendor, SIZEOF_CONN_PACKET_MODULE_VENDOR),
    (RawDataHeaderVendor, SIZEOF_CONN_PACKET_MODULE_VENDOR),
    (RawDataLight, SIZEOF_RAW_DATA_LIGHT_PACKET + 1),
    (RawDataLightVendor, SIZEOF_RAW_DATA_LIGHT_VENDOR_PACKET + 1),
    (RawDataStartPayload, SIZEOF_RAW_DATA_START_PAYLOAD),
    (RawDataErrorPayload, 2),
    (RawDataChunkPayload, SIZEOF_RAW_DATA_CHUNK_PAYLOAD + 1),
    (RawDataReportPayload, 12),
    (CapabilityRequestedMessage, 6),
    (CapabilityEntryMessage, 128),
    (CapabilityEndMessage, 10),
    (connPacketUpdateTimestamp, SIZEOF_CONN_PACKET_UPDATE_TIMESTAMP),
    (TimeSyncInitial, 24),
    (TimeSyncInterNetwork, 20),
    (TimeSyncInitialReply, 6),
    (TimeSyncCorrection, 10),
    (TimeSyncCorrectionReply, 6),
    (EnrolledNodesMessage, 8),
    (ConnPacketPayloadData1 MAX_DATA_SIZE_PER_WRITE,
      SIZEOF_CONN_PACKET_PAYLOAD_DATA_1 MAX_DATA_SIZE_PER_WRITE),
    (ConnPacketData1 MAX_DATA_SIZE_PER_WRITE, SIZEOF_CONN_PACKET_DATA_1 MAX_DATA_SIZE_PER_WRITE),
    (ConnPacketPayloadClcData MAX_DATA_SIZE_PER_WRITE,
      SIZEOF_CONN_PACKET_PAYLOAD_CLC_DATA MAX_DATA_SIZE_PER_WRITE),
    (ConnPacketDataClcData MAX_DATA_SIZE_PER_WRITE,
      SIZEOF_CONN_PACKET_CLC_DATA MAX_DATA_SIZE_PER_WRITE),
    (ConnPacketUpdateConnectionInterval, SIZEOF_CONN_PACKET_UPDATE_CONNECTION_INTERVAL),
    (PeriodicAssetMessageEntry SIZEOF_ADV_STRUCTURE_ASSET_SERVICE_DATA_PAYLOAD,
      SIZEOF_TRACKED_ASSET_MESSAGE_ENTRY),
    (StandstillAssetMessageEntry, SIZEOF_STANDSTILL_ASSET_MESSAGE_ENTRY) ]

/-! ## Bit-field runs -/

/-- The runs of adjacent bit-field members among the members of a struct, each run as the
declared type and width of its bit-fields; `cur` is the run that is being collected. -/
def bitRunsFrom (cur : List (CType × Nat)) : List Member → List (List (CType × Nat))
  | [] => if cur.isEmpty then [] else [cur]
  | .bits _ t k :: ms => bitRunsFrom (cur ++ [(t, k)]) ms
  | _ :: ms => (if cur.isEmpty then [] else [cur]) ++ bitRunsFrom [] ms

/-- The runs of adjacent bit-fields a struct declares. -/
def bitRuns (s : Struct) : List (List (CType × Nat)) := bitRunsFrom [] s

/-- A run of bit-fields fills its storage unit: all its bit-fields are declared with the
type of the first one, and their widths add up to the width of that type. -/
def fillsUnit (w : FmTypes) : List (CType × Nat) → Bool
  | [] => true
  | (t, k) :: r =>
    ((t, k) :: r).all (fun f => f.1 == t) && (((t, k) :: r).map (fun f => f.2)).sum == 8 * t.bytes w

/-! ## Encoding and decoding -/

/-- Modelled from the spec: the payload value of a struct, for every field in declaration
order the values of its elements, one value for a scalar or bit-field, `count` values for
an array. A signed field is given by its bit pattern. -/
abbrev Payload := List (List Nat)

/-- Modelled from the spec: every field of a payload fits its declared width. There is
one list of values per slot, it has as many values as the slot has elements, and every
value is below `2 ^ width`. -/
def Fits : List Slot → Payload → Prop
  | [], [] => True
  | s :: l, vs :: p => vs.length = s.count ∧ (∀ v ∈ vs, v < 2 ^ s.width) ∧ Fits l p
  | _, _ => False

/-- Number of bits the slots of a layout take. -/
def slotBits : List Slot → Nat
  | [] => 0
  | s :: l => s.width * s.count + slotBits l

mutual
/-- The fields a member declares, in declaration order, each as its width in bits and its
number of elements; a member of struct type declares the fields of that struct. Offsets
play no part. -/
def Member.fields (w : FmTypes) : Member → List (Nat × Nat)
  | .field _ t => [(8 * t.bytes w, 1)]
  | .array _ t len => [(8 * t.bytes w, len)]
  | .bits _ _ k => [(k, 1)]
  | .struct _ ms => Member.fieldsAll w ms
/-- The fields a list of members declares, in declaration order. -/
def Member.fieldsAll (w : FmTypes) : List Member → List (Nat × Nat)
  | [] => []
  | m :: ms => Member.fields w m ++ Member.fieldsAll w ms
end

/-- The fields of a struct in declaration order, as width and number of elements. -/
def fields (w : FmTypes) (S : Struct) : List (Nat × Nat) := Member.fieldsAll w S

/-- Modelled from the spec: writing the elements of one field behind what is written so
far, each in `width` bits and without a gap. The state is the bit stream written so far,
as the number whose binary digits are its bits (first bit lowest), and its length in
bits. -/
def writeElems (width : Nat) : List Nat → Nat × Nat → Nat × Nat
  | [], st => st
  | v :: vs, st => writeElems width vs (st.1 + storeBits width v * 2 ^ st.2, st.2 + width)

/-- Modelled from the spec: writing the fields of a payload one after the other in
declaration order, no padding between them. -/
def writeFields : List (Nat × Nat) → Payload → Nat × Nat → Nat × Nat
  | f :: fs, vs :: p, st => writeFields fs p (writeElems f.1 vs st)
  | _, _, st => st

/-- Modelled from the spec: the byte array of an encoding, the `len` low bytes of a
number, lowest first. -/
def toBytes (n : Nat) : Nat → List Nat
  | 0 => []
  | len + 1 => n % 256 :: toBytes (n / 256) len

/-- Modelled from the spec: the number a byte array stands for, lowest byte first. -/
def ofBytes : List Nat → Nat
  | [] => 0
  | b :: bs => b % 256 + 256 * ofBytes bs

/-- Modelled from the spec: the encoding of one record, its fields written in declaration
order with packing 1 and no padding, as bytes. It walks the declared fields and does not
use the offsets of the layout. -/
def encodeRecord (w : FmTypes) (S : Struct) (p : Payload) : List Nat :=
  let r := writeFields (fields w S) p (0, 0)
  toBytes r.1 ((r.2 + 7) / 8)

/-- The elements of one member read from a buffer, `count` elements of `width` bits from
bit `offset` on; `n` is the number the buffer stands for. -/
def decodeElems (width offset n : Nat) : Nat → List Nat
  | 0 => []
  | c + 1 => n / 2 ^ offset % 2 ^ width :: decodeElems width (offset + width) n c

/-- Every member of a layout read from a buffer, each at the offset and with the width
the packed layout gives it. -/
def decodeSlots (n : Nat) (l : List Slot) : Payload :=
  l.map (fun s => decodeElems s.width s.offset n s.count)

/-- Modelled from the spec: reading one record from a buffer of its size. The header has
no decoding function; a node reads a received buffer through the packed struct, every
member at the offset and with the width of the layout, which is what this does. -/
def decodeRecord (w : FmTypes) (S : Struct) (bytes : List Nat) : Option Payload :=
  if bytes.length = sizeof w S then some (decodeSlots (ofBytes bytes) (layout w S)) else none

/-- The elements of one member written at bit `offset`, as a number; the counterpart of
`decodeElems`, used to relate the written stream to the layout. -/
def encodeElems (width offset : Nat) : List Nat → Nat
  | [] => 0
  | v :: vs => storeBits width v * 2 ^ offset + encodeElems width (offset + width) vs

/-- The members of a payload written at the offsets of a layout, as a number; the
counterpart of `decodeSlots`. -/
def encodeSlots : List Slot → Payload → Nat
  | s :: l, vs :: p => encodeElems s.width s.offset vs + encodeSlots l p
  | _, _ => 0

/-! ## Vendor module layouts -/

/-- The layout the words "the module identifier widened from 1 to 4 bytes and nothing
else changed" describe: the slot `moduleId` becomes 32 bits wide, every slot behind it
moves 3 bytes up, and names, widths and element counts of all other slots stay as they
are. It is compared with the layout of the vendor struct the header declares. -/
def widenModuleId : List Slot → List Slot
  | [] => []
  | s :: r =>
    if s.name = "moduleId" then
      { s with width := 32 } :: r.map (fun t => { t with offset := t.offset + 8 * 3 })
    else s :: widenModuleId r

/-! ## Message kinds and the packet decoder -/

/-- The enumerators of `enum class CapabilityActionType : u8`. -/
inductive CapabilityActionType where
  | REQUESTED
  | ENTRY
  | END
  deriving DecidableEq, Repr

/-- The value the header assigns to each enumerator of `CapabilityActionType`. -/
def CapabilityActionType.toU8 : CapabilityActionType → Nat
  | .REQUESTED => 0
  | .ENTRY => 1
  | .END => 2

/-- The enumerators of `enum class TimeSyncType : u8`. -/
inductive TimeSyncType where
  | INITIAL
  | INITIAL_REPLY
  | CORRECTION
  | CORRECTION_REPLY
  | INTER_NETWORK
  deriving DecidableEq, Repr

/-- The value the header assigns to each enumerator of `TimeSyncType`. -/
def TimeSyncType.toU8 : TimeSyncType → Nat
  | .INITIAL => 0
  | .INITIAL_REPLY => 1
  | .CORRECTION => 2
  | .CORRECTION_REPLY => 3
  | .INTER_NETWORK => 4

/-- Modelled from the spec: what may follow the fixed record of a message, nothing, a
trailing span of at most `max` bytes, or a trailing span of any length. The length of the
span is what the total length leaves after the fixed record. -/
inductive Span where
  | none
  | upTo (max : Nat)
  | any
  deriving DecidableEq, Repr

/-- Modelled from the spec: one message kind, the `type` of `encode(type, payload)` and
`decode(bytes)`. `tag` is the message type in the first byte, `tagField` the member that
holds it, `sub` the member and value of the second discriminator for the message types
that have one (the time sync type, the capability action type, the raw data action type),
`fixed` the struct of the fixed record, `size` its documented size and `span` what may
follow it. -/
structure Kind where
  name : String
  tag : MessageType
  tagField : String
  sub : Option (String × Nat)
  fixed : Struct
  size : Nat
  span : Span

/-- Modelled from the spec: the message kinds, one per message whose packet the header
declares, with the struct, the size constant and the discriminators the header gives it.
The header has no such table; each line pairs a message type with the struct declared
under the comment that names it. A raw data message is the raw data header followed by
the payload of its action type, a module message the module header followed by its data.
An array at the end of a struct that stands for a variable number of bytes (`data` of a
module message, `payload`, `metadata`) is the trailing span. The Welcome packet has a
second kind for its documented size without network id, the same struct without its last
member; the two are told apart by their length. Message types without a
packet struct of their own in the header (`ASSET_LEGACY`, `ASSET_GENERIC`,
`SIG_MESH_SIMPLE`, `DEAD_DATA`) are no kinds, and a module message is read with the 1-byte
module identifier. -/
def kinds (MAX_DATA_SIZE_PER_WRITE : Nat) : List Kind :=
  [ ⟨"SplitWriteCmd", .SPLIT_WRITE_CMD, "splitMessageType", none,
      ConnPacketSplitHeader, SIZEOF_CONN_PACKET_SPLIT_HEADER, .any⟩,
    ⟨"SplitWriteCmdEnd", .SPLIT_WRITE_CMD_END, "splitMessageType", none,
      ConnPacketSplitHeader, SIZEOF_CONN_PACKET_SPLIT_HEADER, .any⟩,
    ⟨"ClusterWelcome", .CLUSTER_WELCOME, "header.messageType", none,
      ConnPacketClusterWelcome, SIZEOF_CONN_PACKET_CLUSTER_WELCOME_WITH_NETWORK_ID, .none⟩,
    ⟨"ClusterWelcomeWithoutNetworkId", .CLUSTER_WELCOME, "header.messageType", none,
      [.struct "header" ConnPacketHeader,
        .struct "payload" ConnPacketPayloadClusterWelcome.dropLast],
      SIZEOF_CONN_PACKET_CLUSTER_WELCOME, .none⟩,
    ⟨"ClusterAck1", .CLUSTER_ACK_1, "header.messageType", none,
      ConnPacketClusterAck1, SIZEOF_CONN_PACKET_CLUSTER_ACK_1, .none⟩,
    ⟨"ClusterAck2", .CLUSTER_ACK_2, "header.messageType", none,
      ConnPacketClusterAck2, SIZEOF_CONN_PACKET_CLUSTER_ACK_2, .none⟩,
    ⟨"ClusterInfoUpdate", .CLUSTER_INFO_UPDATE, "header.messageType", none,
      ConnPacketClusterInfoUpdate, SIZEOF_CONN_PACKET_CLUSTER_INFO_UPDATE, .none⟩,
    ⟨"Reconnect", .RECONNECT, "header.messageType", none,
      ConnPacketReconnect, SIZEOF_CONN_PACKET_RECONNECT, .none⟩,
    ⟨"EncryptCustomStart", .ENCRYPT_CUSTOM_START, "header.messageType", none,
      ConnPacketEncryptCustomStart, SIZEOF_CONN_PACKET_ENCRYPT_CUSTOM_START, .none⟩,
    ⟨"EncryptCustomANonce", .ENCRYPT_CUSTOM_ANONCE, "header.messageType", none,
      ConnPacketEncryptCustomANonce, SIZEOF_CONN_PACKET_ENCRYPT_CUSTOM_ANONCE, .none⟩,
    ⟨"EncryptCustomSNonce", .ENCRYPT_CUSTOM_SNONCE, "header.messageType", none,
      ConnPacketEncryptCustomSNonce, SIZEOF_CONN_PACKET_ENCRYPT_CUSTOM_SNONCE, .none⟩,
    ⟨"EncryptCustomDone", .ENCRYPT_CUSTOM_DONE, "header.messageType", none,
      ConnPacketEncryptCustomDone, SIZEOF_CONN_PACKET_ENCRYPT_CUSTOM_DONE, .none⟩,
    ⟨"UpdateTimestamp", .UPDATE_TIMESTAMP, "header.messageType", none,
      connPacketUpdateTimestamp, SIZEOF_CONN_PACKET_UPDATE_TIMESTAMP, .none⟩,
    ⟨"UpdateConnectionInterval", .UPDATE_CONNECTION_INTERVAL, "header.messageType", none,
      ConnPacketUpdateConnectionInterval, SIZEOF_CONN_PACKET_UPDATE_CONNECTION_INTERVAL,
      .none⟩,
    ⟨"CapabilityRequested", .CAPABILITY, "header.header.messageType",
      some ("header.actionType", CapabilityActionType.REQUESTED.toU8),
      CapabilityRequestedMessage, 6, .none⟩,
    ⟨"CapabilityEntry", .CAPABILITY, "header.header.messageType",
      some ("header.actionType", CapabilityActionType.ENTRY.toU8),
      CapabilityEntryMessage, 128, .none⟩,
    ⟨"CapabilityEnd", .CAPABILITY, "header.header.messageType",
      some ("header.actionType", CapabilityActionType.END.toU8),
      CapabilityEndMessage, 10, .none⟩,
    ⟨"ModuleConfig", .MODULE_CONFIG, "header.messageType", none,
      ConnPacketModuleStart, SIZEOF_CONN_PACKET_MODULE, .any⟩,
    ⟨"ModuleTriggerAction", .MODULE_TRIGGER_ACTION, "header.messageType", none,
      ConnPacketModuleStart, SIZEOF_CONN_PACKET_MODULE, .any⟩,
    ⟨"ModuleActionResponse", .MODULE_ACTION_RESPONSE, "header.messageType", none,
      ConnPacketModuleStart, SIZEOF_CONN_PACKET_MODULE, .any⟩,
    ⟨"ModuleGeneral", .MODULE_GENERAL, "header.messageType", none,
      ConnPacketModuleStart, SIZEOF_CONN_PACKET_MODULE, .any⟩,
    ⟨"RawDataStart", .MODULE_RAW_DATA, "connHeader.messageType",
      some ("actionType", RawDataActionType.START.toU8),
      RawDataHeader ++ RawDataStartPayload.dropLast,
      SIZEOF_CONN_PACKET_MODULE + SIZEOF_RAW_DATA_START_PAYLOAD,
      .upTo MAX_RAW_DATA_METADATA_SIZE⟩,
    ⟨"RawDataStartReceived", .MODULE_RAW_DATA, "connHeader.messageType",
      some ("actionType", RawDataActionType.START_RECEIVED.toU8),
      RawDataHeader, SIZEOF_CONN_PACKET_MODULE, .none⟩,
    ⟨"RawDataChunk", .MODULE_RAW_DATA, "connHeader.messageType",
      some ("actionType", RawDataActionType.CHUNK.toU8),
      RawDataHeader ++ RawDataChunkPayload.dropLast,
      SIZEOF_CONN_PACKET_MODULE + SIZEOF_RAW_DATA_CHUNK_PAYLOAD, .any⟩,
    ⟨"RawDataReport", .MODULE_RAW_DATA, "connHeader.messageType",
      some ("actionType", RawDataActionType.REPORT.toU8),
      RawDataHeader ++ RawDataReportPayload, SIZEOF_CONN_PACKET_MODULE + 12, .none⟩,
    ⟨"RawDataError", .MODULE_RAW_DATA, "connHeader.messageType",
      some ("actionType", RawDataActionType.ERROR_T.toU8),
      RawDataHeader ++ RawDataErrorPayload, SIZEOF_CONN_PACKET_MODULE + 2, .none⟩,
    ⟨"RawDataReportDesired", .MODULE_RAW_DATA, "connHeader.messageType",
      some ("actionType", RawDataActionType.REPORT_DESIRED.toU8),
      RawDataHeader ++ RawDataReportPayload, SIZEOF_CONN_PACKET_MODULE + 12, .none⟩,
    ⟨"RawDataLight", .MODULE_RAW_DATA_LIGHT, "connHeader.messageType", none,
      RawDataLight.dropLast, SIZEOF_RAW_DATA_LIGHT_PACKET, .any⟩,
    ⟨"ComponentAct", .COMPONENT_ACT, "header.messageType", none,
      ComponentMessageHeader, SIZEOF_COMPONENT_MESSAGE_HEADER, .any⟩,
    ⟨"ComponentSense", .COMPONENT_SENSE, "header.messageType", none,
      ComponentMessageHeader, SIZEOF_COMPONENT_MESSAGE_HEADER, .any⟩,
    ⟨"TimeSyncInitial", .TIME_SYNC, "header.header.messageType",
      some ("header.type", TimeSyncType.INITIAL.toU8), TimeSyncInitial, 24, .none⟩,
    ⟨"TimeSyncInitialReply", .TIME_SYNC, "header.header.messageType",
      some ("header.type", TimeSyncType.INITIAL_REPLY.toU8), TimeSyncInitialReply, 6, .none⟩,
    ⟨"TimeSyncCorrection", .TIME_SYNC, "header.header.messageType",
      some ("header.type", TimeSyncType.CORRECTION.toU8), TimeSyncCorrection, 10, .none⟩,
    ⟨"TimeSyncCorrectionReply", .TIME_SYNC, "header.header.messageType",
      some ("header.type", TimeSyncType.CORRECTION_REPLY.toU8), TimeSyncCorrectionReply, 6,
      .none⟩,
    ⟨"TimeSyncInterNetwork", .TIME_SYNC, "header.header.messageType",
      some ("header.type", TimeSyncType.INTER_NETWORK.toU8), TimeSyncInterNetwork, 20, .none⟩,
    ⟨"Data1", .DATA_1, "header.messageType", none,
      ConnPacketData1 MAX_DATA_SIZE_PER_WRITE,
      SIZEOF_CONN_PACKET_DATA_1 MAX_DATA_SIZE_PER_WRITE, .none⟩,
    ⟨"Data1Vital", .DATA_1_VITAL, "header.messageType", none,
      ConnPacketData1 MAX_DATA_SIZE_PER_WRITE,
      SIZEOF_CONN_PACKET_DATA_1 MAX_DATA_SIZE_PER_WRITE, .none⟩,
    ⟨"ClcData", .CLC_DATA, "header.messageType", none,
      ConnPacketDataClcData MAX_DATA_SIZE_PER_WRITE,
      SIZEOF_CONN_PACKET_CLC_DATA MAX_DATA_SIZE_PER_WRITE, .none⟩ ]

/-- Modelled from the spec: the error kinds of decoding. An unknown type carries the raw
tag and the bytes. -/
inductive DecodeError where
  | UnknownType (tag : Nat) (bytes : List Nat)
  | SizeMismatch
  | Truncated

/-- Modelled from the spec: a decoded message, its kind, the payload of its fixed record
and its trailing span. -/
structure Decoded where
  kind : Kind
  payload : Payload
  span : List Nat

/-- The value a payload gives to the member `name` of a layout (its first element). -/
def fieldValue : List Slot → Payload → String → Option Nat
  | s :: l, vs :: p, name => if s.name = name then vs.head? else fieldValue l p name
  | _, _, _ => none

/-- Modelled from the spec: a payload is one of kind `k`, its message type member holds
the tag of `k` and its second discriminator, when `k` has one, the value of `k`. -/
def Tagged (w : FmTypes) (k : Kind) (p : Payload) : Prop :=
  fieldValue (layout w k.fixed) p k.tagField = some k.tag.toU8
  ∧ ∀ d ∈ k.sub, fieldValue (layout w k.fixed) p d.1 = some d.2

/-- Modelled from the spec: whether `n` trailing bytes are allowed behind the fixed
record of kind `k`. -/
def Kind.allows (k : Kind) (n : Nat) : Bool :=
  match k.span with
  | .none => n == 0
  | .upTo max => n ≤ max
  | .any => true

/-- Modelled from the spec: `encode(type, payload)`, the fixed record of the kind written
field by field in declaration order, followed by the bytes of the trailing span. -/
def encode (w : FmTypes) (k : Kind) (p : Payload) (span : List Nat) : List Nat :=
  encodeRecord w k.fixed p ++ span

/-- Modelled from the spec: whether the second discriminator of kind `k` is found in the
bytes, at the byte the layout gives to that member; `none` when the bytes end before
it. A kind without a second discriminator always matches. -/
def subMatches (w : FmTypes) (k : Kind) (bytes : List Nat) : Option Bool :=
  match k.sub with
  | none => some true
  | some d =>
    match byteSpan (layout w k.fixed) d.1 with
    | some (off, 1) => (bytes[off]?).map (fun b => b == d.2)
    | _ => some false

/-- Modelled from the spec: whether a buffer of `n` bytes has a length kind `k` accepts,
the documented size of the fixed record plus a trailing span the kind allows. -/
def Kind.accepts (k : Kind) (n : Nat) : Bool :=
  k.size ≤ n && k.allows (n - k.size)

/-- Modelled from the spec: the kind a byte stream with first byte `tag` belongs to, the
first kind of the table with that tag whose second discriminator is found in the bytes and
which accepts their length. When the length fits no such kind, the first kind with the
tag and discriminator is chosen and reading it reports what is wrong with the length. No
kind with the tag and discriminator is an unknown type; a stream that ends before the
second discriminator is truncated. -/
def selectKind (w : FmTypes) (MAX_DATA_SIZE_PER_WRITE tag : Nat) (bytes : List Nat) :
    Except DecodeError Kind :=
  let cands := (kinds MAX_DATA_SIZE_PER_WRITE).filter (fun k => k.tag.toU8 == tag)
  let named := cands.filter (fun k => subMatches w k bytes == some true)
  match named.find? (fun k => k.accepts bytes.length) with
  | some k => .ok k
  | none =>
    match named with
    | k :: _ => .ok k
    | [] =>
      if cands.any (fun k => subMatches w k bytes == none) then .error .Truncated
      else .error (.UnknownType tag bytes)

/-- Modelled from the spec: the bytes read as a message of kind `k`. Fewer bytes than the
documented size of the fixed record is a truncation, trailing bytes the kind does not
allow a size mismatch; the fixed record is read member by member through the packed
layout, the rest is the trailing span. -/
def decodeAs (w : FmTypes) (k : Kind) (bytes : List Nat) : Except DecodeError Decoded :=
  if bytes.length < k.size then .error .Truncated
  else if k.allows (bytes.length - k.size) = false then .error .SizeMismatch
  else .ok ⟨k, decodeSlots (ofBytes (bytes.take k.size)) (layout w k.fixed), bytes.drop k.size⟩

/-- Modelled from the spec: `decode(bytes)`. The message type is read from the first
byte and, with the second discriminator where the type has one, selects the kind; the
result is the kind with its payload and trailing span, or one of the error kinds. -/
def decode (w : FmTypes) (MAX_DATA_SIZE_PER_WRITE : Nat) (bytes : List Nat) :
    Except DecodeError Decoded :=
  match bytes with
  | [] => .error .Truncated
  | tag :: _ =>
    match selectKind w MAX_DATA_SIZE_PER_WRITE tag bytes with
    | .ok k => decodeAs w k bytes
    | .error e => .error e

/-! ## The packet header -/

/-- C1: with 2-byte node identifiers the packet header is 5 bytes, a 1-byte message type
at byte 0, the 2-byte sender at byte 1 and the 2-byte receiver at byte 3; the cluster
handshake packets start with it, each full-packet size constant is 5 plus the payload
constant (Welcome 5+11 and 5+13, Ack1 5+3, Ack2 5+8, Info-Update 5+9), each packet struct
is as large as the header plus its payload struct, and a Reconnect packet is the header
alone, 5 bytes. -/
theorem header_prefixes_every_packet (w : FmTypes) (h : w.NodeId = 2) :
    (SIZEOF_CONN_PACKET_HEADER = 5 ∧ STATIC_ASSERT_SIZE w ConnPacketHeader SIZEOF_CONN_PACKET_HEADER
      ∧ layout w ConnPacketHeader =
          [⟨"messageType", 0, 8, 1⟩, ⟨"sender", 8, 16, 1⟩, ⟨"receiver", 24, 16, 1⟩])
    ∧ (SIZEOF_CONN_PACKET_CLUSTER_WELCOME = 5 + 11
      ∧ SIZEOF_CONN_PACKET_CLUSTER_WELCOME_WITH_NETWORK_ID = 5 + 13
      ∧ SIZEOF_CONN_PACKET_CLUSTER_ACK_1 = 5 + 3
      ∧ SIZEOF_CONN_PACKET_CLUSTER_ACK_2 = 5 + 8
      ∧ SIZEOF_CONN_PACKET_CLUSTER_INFO_UPDATE = 5 + 9
      ∧ SIZEOF_CONN_PACKET_RECONNECT = 5)
    ∧ (SIZEOF_CONN_PACKET_CLUSTER_WELCOME =
          SIZEOF_CONN_PACKET_HEADER + SIZEOF_CONN_PACKET_PAYLOAD_CLUSTER_WELCOME
      ∧ SIZEOF_CONN_PACKET_CLUSTER_WELCOME_WITH_NETWORK_ID =
          SIZEOF_CONN_PACKET_HEADER + SIZEOF_CONN_PACKET_PAYLOAD_CLUSTER_WELCOME_WITH_NETWORK_ID
      ∧ SIZEOF_CONN_PACKET_CLUSTER_ACK_1 =
          SIZEOF_CONN_PACKET_HEADER + SIZEOF_CONN_PACKET_PAYLOAD_CLUSTER_ACK_1
      ∧ SIZEOF_CONN_PACKET_CLUSTER_ACK_2 =
          SIZEOF_CONN_PACKET_HEADER + SIZEOF_CONN_PACKET_PAYLOAD_CLUSTER_ACK_2
      ∧ SIZEOF_CONN_PACKET_CLUSTER_INFO_UPDATE =
          SIZEOF_CONN_PACKET_HEADER + SIZEOF_CONN_PACKET_PAYLOAD_CLUSTER_INFO_UPDATE)
    ∧ (sizeof w ConnPacketClusterWelcome = 5 + sizeof w ConnPacketPayloadClusterWelcome
      ∧ sizeof w ConnPacketClusterAck1 = 5 + sizeof w ConnPacketPayloadClusterAck1
      ∧ sizeof w ConnPacketClusterAck2 = 5 + sizeof w ConnPacketPayloadClusterAck2
      ∧ sizeof w ConnPacketClusterInfoUpdate =
          5 + sizeof w ConnPacketPayloadClusterInfoUpdate)
    ∧ ((layout w ConnPacketClusterWelcome).take 3 = headerSlots "header"
      ∧ (layout w ConnPacketClusterAck1).take 3 = headerSlots "header"
      ∧ (layout w ConnPacketClusterAck2).take 3 = headerSlots "header"
      ∧ (layout w ConnPacketClusterInfoUpdate).take 3 = headerSlots "header")
    ∧ (layout w ConnPacketReconnect = headerSlots "header"
      ∧ STATIC_ASSERT_SIZE w ConnPacketReconnect SIZEOF_CONN_PACKET_RECONNECT
      ∧ sizeof w ConnPacketReconnect = 5) := by
  obtain ⟨n, ci, cs, ni, k, m, v⟩ := w
  simp only at h
  subst h
  refine ⟨⟨rfl, ?_, ?_⟩, ⟨rfl, rfl, rfl, rfl, rfl, rfl⟩, ⟨rfl, rfl, rfl, rfl, rfl⟩,
    ⟨?_, ?_, ?_, ?_⟩, ⟨?_, ?_, ?_, ?_⟩, ?_, ?_, ?_⟩
  · simp [STATIC_ASSERT_SIZE, SIZEOF_CONN_PACKET_HEADER, sizeof, ConnPacketHeader,
      Member.placeAll, Member.place, Cursor.close, CType.bytes]
  · simp [layout, ConnPacketHeader, Member.placeAll, Member.place, Cursor.close, CType.bytes]
  · simp [sizeof, ConnPacketClusterWelcome, ConnPacketHeader, ConnPacketPayloadClusterWelcome,
      Member.placeAll, Member.place, Cursor.close, CType.bytes]
    omega
  · simp [sizeof, ConnPacketClusterAck1, ConnPacketHeader, ConnPacketPayloadClusterAck1,
      Member.placeAll, Member.place, Cursor.close, CType.bytes]
    omega
  · simp [sizeof, ConnPacketClusterAck2, ConnPacketHeader, ConnPacketPayloadClusterAck2,
      Member.placeAll, Member.place, Cursor.close, CType.bytes]
    omega
  · simp [sizeof, ConnPacketClusterInfoUpdate, ConnPacketHeader,
      ConnPacketPayloadClusterInfoUpdate, Member.placeAll, Member.place, Cursor.close,
      CType.bytes]
    omega
  · simp [layout, headerSlots, ConnPacketClusterWelcome, ConnPacketHeader,
      ConnPacketPayloadClusterWelcome, Member.placeAll, Member.place, Cursor.close,
      CType.bytes]
  · simp [layout, headerSlots, ConnPacketClusterAck1, ConnPacketHeader,
      ConnPacketPayloadClusterAck1, Member.placeAll, Member.place, Cursor.close, CType.bytes]
  · simp [layout, headerSlots, ConnPacketClusterAck2, ConnPacketHeader,
      ConnPacketPayloadClusterAck2, Member.placeAll, Member.place, Cursor.close, CType.bytes]
  · simp [layout, headerSlots, ConnPacketClusterInfoUpdate, ConnPacketHeader,
      ConnPacketPayloadClusterInfoUpdate, Member.placeAll, Member.place, Cursor.close,
      CType.bytes]
  · simp [layout, headerSlots, ConnPacketReconnect, ConnPacketHeader, Member.placeAll,
      Member.place, Cursor.close, CType.bytes]
  · simp [STATIC_ASSERT_SIZE, SIZEOF_CONN_PACKET_RECONNECT, SIZEOF_CONN_PACKET_HEADER, sizeof,
      ConnPacketReconnect, ConnPacketHeader, Member.placeAll, Member.place, Cursor.close,
      CType.bytes]
  · simp [sizeof, ConnPacketReconnect, ConnPacketHeader, Member.placeAll, Member.place,
      Cursor.close, CType.bytes]

/-- C1 at the widths of `fmTypes`: the header is 5 bytes and a Reconnect packet is the
header alone. -/
theorem header_prefixes_every_packet_witness :
    fmTypes.NodeId = 2
    ∧ STATIC_ASSERT_SIZE fmTypes ConnPacketHeader SIZEOF_CONN_PACKET_HEADER
    ∧ sizeof fmTypes ConnPacketClusterWelcome = 5 + sizeof fmTypes ConnPacketPayloadClusterWelcome
    ∧ sizeof fmTypes ConnPacketReconnect = 5 :=
  have t := header_prefixes_every_packet fmTypes rfl
  ⟨rfl, t.1.2.1, t.2.2.2.1.1, t.2.2.2.2.2.2.2⟩

/-! ## The cluster handshake payloads -/

/-- C2: with ClusterId 4, ClusterSize 2 and NetworkId 2 bytes wide, every cluster
handshake payload is laid out without padding, its size is the sum of its declared field
widths and the documented constant: Welcome 13 (4+2+2+2+1+2) with `networkId` as the
trailing 2-byte field at byte 11, so that the struct without that field is the first 11
bytes and has the size of the constant without network id; Ack1 3, Ack2 8 and
Info-Update 9. -/
theorem cluster_payload_sizes (w : FmTypes) (hId : w.ClusterId = 4) (hSize : w.ClusterSize = 2)
    (hNet : w.NetworkId = 2) :
    (NoPadding w ConnPacketPayloadClusterWelcome
      ∧ declaredBits w ConnPacketPayloadClusterWelcome = 8 * (4 + 2 + 2 + 2 + 1 + 2)
      ∧ sizeof w ConnPacketPayloadClusterWelcome = 13
      ∧ SIZEOF_CONN_PACKET_PAYLOAD_CLUSTER_WELCOME_WITH_NETWORK_ID = 13
      ∧ STATIC_ASSERT_SIZE w ConnPacketPayloadClusterWelcome
          SIZEOF_CONN_PACKET_PAYLOAD_CLUSTER_WELCOME_WITH_NETWORK_ID)
    ∧ (layout w ConnPacketPayloadClusterWelcome =
          layout w ConnPacketPayloadClusterWelcome.dropLast ++ [⟨"networkId", 8 * 11, 16, 1⟩]
      ∧ NoPadding w ConnPacketPayloadClusterWelcome.dropLast
      ∧ sizeof w ConnPacketPayloadClusterWelcome.dropLast = 11
      ∧ SIZEOF_CONN_PACKET_PAYLOAD_CLUSTER_WELCOME = 11
      ∧ SIZEOF_CONN_PACKET_PAYLOAD_CLUSTER_WELCOME + 2 =
          SIZEOF_CONN_PACKET_PAYLOAD_CLUSTER_WELCOME_WITH_NETWORK_ID)
    ∧ (NoPadding w ConnPacketPayloadClusterAck1
      ∧ declaredBits w ConnPacketPayloadClusterAck1 = 8 * (2 + 1)
      ∧ SIZEOF_CONN_PACKET_PAYLOAD_CLUSTER_ACK_1 = 3
      ∧ STATIC_ASSERT_SIZE w ConnPacketPayloadClusterAck1 SIZEOF_CONN_PACKET_PAYLOAD_CLUSTER_ACK_1)
    ∧ (NoPadding w ConnPacketPayloadClusterAck2
      ∧ declaredBits w ConnPacketPayloadClusterAck2 = 8 * (4 + 2 + 2)
      ∧ SIZEOF_CONN_PACKET_PAYLOAD_CLUSTER_ACK_2 = 8
      ∧ STATIC_ASSERT_SIZE w ConnPacketPayloadClusterAck2 SIZEOF_CONN_PACKET_PAYLOAD_CLUSTER_ACK_2)
    ∧ (NoPadding w ConnPacketPayloadClusterInfoUpdate
      ∧ declaredBits w ConnPacketPayloadClusterInfoUpdate = 8 * (4 + 2 + 2) + (1 + 1 + 6)
      ∧ SIZEOF_CONN_PACKET_PAYLOAD_CLUSTER_INFO_UPDATE = 9
      ∧ STATIC_ASSERT_SIZE w ConnPacketPayloadClusterInfoUpdate
          SIZEOF_CONN_PACKET_PAYLOAD_CLUSTER_INFO_UPDATE) := by
  obtain ⟨n, ci, cs, ni, k, m, v⟩ := w
  simp only at hId hSize hNet
  subst hId hSize hNet
  refine ⟨⟨?_, ?_, ?_, rfl, ?_⟩, ⟨?_, ?_, ?_, rfl, rfl⟩, ⟨?_, ?_, rfl, ?_⟩, ⟨?_, ?_, rfl, ?_⟩,
    ?_, ?_, rfl, ?_⟩
  all_goals
    simp [NoPadding, STATIC_ASSERT_SIZE, contiguousFrom, declaredBits, Member.declaredBitsAll,
      Member.declaredBits, layout, sizeof, ConnPacketPayloadClusterWelcome,
      ConnPacketPayloadClusterAck1, ConnPacketPayloadClusterAck2,
      ConnPacketPayloadClusterInfoUpdate, SIZEOF_CONN_PACKET_PAYLOAD_CLUSTER_WELCOME_WITH_NETWORK_ID,
      SIZEOF_CONN_PACKET_PAYLOAD_CLUSTER_ACK_1, SIZEOF_CONN_PACKET_PAYLOAD_CLUSTER_ACK_2,
      SIZEOF_CONN_PACKET_PAYLOAD_CLUSTER_INFO_UPDATE, Member.placeAll, Member.place,
      Cursor.close, CType.bytes]

/-- C2 at the widths of `fmTypes`: the Welcome payload is 13 bytes without padding. -/
theorem cluster_payload_sizes_witness :
    (fmTypes.ClusterId = 4 ∧ fmTypes.ClusterSize = 2 ∧ fmTypes.NetworkId = 2)
    ∧ NoPadding fmTypes ConnPacketPayloadClusterWelcome
    ∧ sizeof fmTypes ConnPacketPayloadClusterWelcome = 13
    ∧ sizeof fmTypes ConnPacketPayloadClusterWelcome.dropLast = 11 :=
  have t := cluster_payload_sizes fmTypes rfl rfl rfl
  ⟨⟨rfl, rfl, rfl⟩, t.1.1, t.1.2.2.1, t.2.1.2.2.1⟩

/-! ## The capability entry -/

/-- C3: with 2-byte node identifiers the capability entry record, as it is sent
(`CapabilityEntryMessage`), has the fixed size of 128 bytes the header asserts, without
padding, and carries the fixed-length character fields `manufacturer` (32 bytes, at byte
11), `modelName` (53 bytes, at byte 43) and `revision` (32 bytes, at byte 96), each stored
in full length with no terminator slot, behind the 5-byte packet header, the 1-byte action
type, the 4-byte index and the 1-byte entry type. The entry struct `CapabilityEntry`
alone, type and the three character arrays, is 118 of the 128 bytes. -/
theorem capability_entry_message_128 (w : FmTypes) (h : w.NodeId = 2) :
    (STATIC_ASSERT_SIZE w CapabilityEntryMessage 128
      ∧ NoPadding w CapabilityEntryMessage
      ∧ layout w CapabilityEntryMessage =
          [ ⟨"header.header.messageType", 0, 8, 1⟩,
            ⟨"header.header.sender", 8, 16, 1⟩,
            ⟨"header.header.receiver", 24, 16, 1⟩,
            ⟨"header.actionType", 8 * 5, 8, 1⟩,
            ⟨"index", 8 * 6, 32, 1⟩,
            ⟨"entry.type", 8 * 10, 8, 1⟩,
            ⟨"entry.manufacturer", 8 * 11, 8, 32⟩,
            ⟨"entry.modelName", 8 * 43, 8, 53⟩,
            ⟨"entry.revision", 8 * 96, 8, 32⟩ ])
    ∧ (sizeof w CapabilityEntry = 118
      ∧ NoPadding w CapabilityEntry
      ∧ sizeof w CapabilityEntry = 1 + 32 + 53 + 32
      ∧ charArrays CapabilityEntry = [("manufacturer", 32), ("modelName", 53), ("revision", 32)]
      ∧ layout w CapabilityEntry =
          [ ⟨"type", 0, 8, 1⟩,
            ⟨"manufacturer", 8 * 1, 8, 32⟩,
            ⟨"modelName", 8 * 33, 8, 53⟩,
            ⟨"revision", 8 * 86, 8, 32⟩ ])
    ∧ sizeof w CapabilityEntryMessage = 5 + 1 + 4 + sizeof w CapabilityEntry := by
  obtain ⟨n, ci, cs, ni, k, m, v⟩ := w
  simp only at h
  subst h
  refine ⟨⟨?_, ?_, ?_⟩, ⟨?_, ?_, ?_, ?_, ?_⟩, ?_⟩
  all_goals
    simp [NoPadding, STATIC_ASSERT_SIZE, contiguousFrom, declaredBits, Member.declaredBitsAll,
      Member.declaredBits, layout, sizeof, charArrays, CapabilityEntryMessage, CapabilityEntry,
      CapabilityHeader, ConnPacketHeader, Member.placeAll, Member.place, Cursor.close,
      CType.bytes]

/-- C3 at the widths of `fmTypes`: the record is 128 bytes as sent, 118 of them the entry
struct. -/
theorem capability_entry_message_128_witness :
    fmTypes.NodeId = 2
    ∧ STATIC_ASSERT_SIZE fmTypes CapabilityEntryMessage 128
    ∧ sizeof fmTypes CapabilityEntry = 118 :=
  have t := capability_entry_message_128 fmTypes rfl
  ⟨rfl, t.1.1, t.2.1.1⟩

/-! ## The encryption handshake packets -/

/-- C4: with 2-byte node identifiers and a 4-byte key identifier the encryption handshake
packets have the documented sizes. Start is header+6 = 11 bytes: the version at byte 5,
the 4-byte key identifier at byte 6 and one byte (byte 10) shared by the 2-bit tunnel type
and 6 reserved bits. ANonce and SNonce are header+8 = 13 bytes each and carry two 32-bit
words, 8 bytes of nonce, at byte 5. Done is header+1 = 6 bytes with the status at
byte 5. -/
theorem encrypt_custom_packet_sizes (w : FmTypes) (hNode : w.NodeId = 2) (hKey : w.FmKeyId = 4) :
    (SIZEOF_CONN_PACKET_ENCRYPT_CUSTOM_START = SIZEOF_CONN_PACKET_HEADER + 6
      ∧ SIZEOF_CONN_PACKET_ENCRYPT_CUSTOM_START = 11
      ∧ STATIC_ASSERT_SIZE w ConnPacketEncryptCustomStart SIZEOF_CONN_PACKET_ENCRYPT_CUSTOM_START
      ∧ NoPadding w ConnPacketEncryptCustomStart
      ∧ layout w ConnPacketEncryptCustomStart = headerSlots "header" ++
          [ ⟨"version", 8 * 5, 8, 1⟩,
            ⟨"fmKeyId", 8 * 6, 8 * 4, 1⟩,
            ⟨"tunnelType", 8 * 10, 2, 1⟩,
            ⟨"reserved", 8 * 10 + 2, 6, 1⟩ ])
    ∧ (SIZEOF_CONN_PACKET_ENCRYPT_CUSTOM_ANONCE = SIZEOF_CONN_PACKET_HEADER + 8
      ∧ SIZEOF_CONN_PACKET_ENCRYPT_CUSTOM_ANONCE = 13
      ∧ STATIC_ASSERT_SIZE w ConnPacketEncryptCustomANonce
          SIZEOF_CONN_PACKET_ENCRYPT_CUSTOM_ANONCE
      ∧ NoPadding w ConnPacketEncryptCustomANonce
      ∧ layout w ConnPacketEncryptCustomANonce =
          headerSlots "header" ++ [⟨"anonce", 8 * 5, 32, 2⟩]
      ∧ byteSpan (layout w ConnPacketEncryptCustomANonce) "anonce" = some (5, 8))
    ∧ (SIZEOF_CONN_PACKET_ENCRYPT_CUSTOM_SNONCE = SIZEOF_CONN_PACKET_HEADER + 8
      ∧ SIZEOF_CONN_PACKET_ENCRYPT_CUSTOM_SNONCE = 13
      ∧ STATIC_ASSERT_SIZE w ConnPacketEncryptCustomSNonce
          SIZEOF_CONN_PACKET_ENCRYPT_CUSTOM_SNONCE
      ∧ NoPadding w ConnPacketEncryptCustomSNonce
      ∧ layout w ConnPacketEncryptCustomSNonce =
          headerSlots "header" ++ [⟨"snonce", 8 * 5, 32, 2⟩]
      ∧ byteSpan (layout w ConnPacketEncryptCustomSNonce) "snonce" = some (5, 8))
    ∧ (SIZEOF_CONN_PACKET_ENCRYPT_CUSTOM_DONE = SIZEOF_CONN_PACKET_HEADER + 1
      ∧ SIZEOF_CONN_PACKET_ENCRYPT_CUSTOM_DONE = 6
      ∧ STATIC_ASSERT_SIZE w ConnPacketEncryptCustomDone SIZEOF_CONN_PACKET_ENCRYPT_CUSTOM_DONE
      ∧ NoPadding w ConnPacketEncryptCustomDone
      ∧ layout w ConnPacketEncryptCustomDone =
          headerSlots "header" ++ [⟨"status", 8 * 5, 8, 1⟩]) := by
  obtain ⟨n, ci, cs, ni, k, m, v⟩ := w
  simp only at hNode hKey
  subst hNode hKey
  refine ⟨⟨rfl, rfl, ?_, ?_, ?_⟩, ⟨rfl, rfl, ?_, ?_, ?_, ?_⟩, ⟨rfl, rfl, ?_, ?_, ?_, ?_⟩,
    rfl, rfl, ?_, ?_, ?_⟩
  all_goals
    simp [NoPadding, STATIC_ASSERT_SIZE, contiguousFrom, declaredBits, Member.declaredBitsAll,
      Member.declaredBits, layout, sizeof, headerSlots, byteSpan, slotOf,
      ConnPacketEncryptCustomStart, ConnPacketEncryptCustomANonce,
      ConnPacketEncryptCustomSNonce, ConnPacketEncryptCustomDone, ConnPacketHeader,
      SIZEOF_CONN_PACKET_ENCRYPT_CUSTOM_START, SIZEOF_CONN_PACKET_ENCRYPT_CUSTOM_ANONCE,
      SIZEOF_CONN_PACKET_ENCRYPT_CUSTOM_SNONCE, SIZEOF_CONN_PACKET_ENCRYPT_CUSTOM_DONE,
      SIZEOF_CONN_PACKET_HEADER, Member.placeAll, Member.place, Cursor.close, CType.bytes]

/-- C4 at the widths of `fmTypes`: the four packets are 11, 13, 13 and 6 bytes. -/
theorem encrypt_custom_packet_sizes_witness :
    (fmTypes.NodeId = 2 ∧ fmTypes.FmKeyId = 4)
    ∧ sizeof fmTypes ConnPacketEncryptCustomStart = 11
    ∧ sizeof fmTypes ConnPacketEncryptCustomANonce = 13
    ∧ sizeof fmTypes ConnPacketEncryptCustomSNonce = 13
    ∧ sizeof fmTypes ConnPacketEncryptCustomDone = 6 :=
  have t := encrypt_custom_packet_sizes fmTypes rfl rfl
  ⟨⟨rfl, rfl⟩, t.1.2.2.1, t.2.1.2.2.1, t.2.2.1.2.2.1, t.2.2.2.2.2.1⟩

/-! ## The time synchronization packets -/

/-- C5: for every width of the node identifier the layout of `TimeSyncInitial` is the
layout of `TimeSyncInterNetwork`, same fields in the same order at the same offsets,
followed by the 4-byte `counter` that starts where the Inter-Network packet ends; the
declarations differ by that last member only. With 2-byte node identifiers the sizes are
Initial 24, Inter-Network 20 = 24 - 4 and Correction 10 bytes. -/
theorem time_sync_inter_network_is_initial_without_counter (w : FmTypes) :
    (TimeSyncInitial = TimeSyncInterNetwork ++ [Member.field "counter" CType.u32]
      ∧ layout w TimeSyncInitial =
          layout w TimeSyncInterNetwork ++ [⟨"counter", 8 * sizeof w TimeSyncInterNetwork, 32, 1⟩]
      ∧ sizeof w TimeSyncInitial = sizeof w TimeSyncInterNetwork + 4)
    ∧ (w.NodeId = 2 →
        STATIC_ASSERT_SIZE w TimeSyncInitial 24
        ∧ STATIC_ASSERT_SIZE w TimeSyncInterNetwork 20
        ∧ STATIC_ASSERT_SIZE w TimeSyncCorrection 10
        ∧ 20 = 24 - 4
        ∧ NoPadding w TimeSyncInitial ∧ NoPadding w TimeSyncInterNetwork
        ∧ NoPadding w TimeSyncCorrection
        ∧ layout w TimeSyncInterNetwork =
            [ ⟨"header.header.messageType", 0, 8, 1⟩,
              ⟨"header.header.sender", 8, 16, 1⟩,
              ⟨"header.header.receiver", 24, 16, 1⟩,
              ⟨"header.type", 8 * 5, 8, 1⟩,
              ⟨"syncTimeStamp", 8 * 6, 32, 1⟩,
              ⟨"timeSincSyncTimeStamp", 8 * 10, 32, 1⟩,
              ⟨"additionalTicks", 8 * 14, 32, 1⟩,
              ⟨"offset", 8 * 18, 16, 1⟩ ]
        ∧ byteSpan (layout w TimeSyncInitial) "counter" = some (20, 4)) := by
  obtain ⟨n, ci, cs, ni, k, m, v⟩ := w
  refine ⟨⟨rfl, ?_, ?_⟩, ?_⟩
  · simp [layout, sizeof, TimeSyncInitial, TimeSyncInterNetwork, TimeSyncHeader,
      ConnPacketHeader, Member.placeAll, Member.place, Cursor.close, CType.bytes]
    omega
  · simp [layout, sizeof, TimeSyncInitial, TimeSyncInterNetwork, TimeSyncHeader,
      ConnPacketHeader, Member.placeAll, Member.place, Cursor.close, CType.bytes]
    omega
  · intro h
    simp only at h
    subst h
    refine ⟨?_, ?_, ?_, rfl, ?_, ?_, ?_, ?_, ?_⟩
    all_goals
      simp [NoPadding, STATIC_ASSERT_SIZE, contiguousFrom, declaredBits,
        Member.declaredBitsAll, Member.declaredBits, layout, sizeof, byteSpan, slotOf,
        TimeSyncInitial, TimeSyncInterNetwork, TimeSyncCorrection, TimeSyncHeader,
        ConnPacketHeader, Member.placeAll, Member.place, Cursor.close, CType.bytes]

/-- C5 at the widths of `fmTypes`: Initial 24, Inter-Network 20 and Correction 10
bytes. -/
theorem time_sync_inter_network_is_initial_without_counter_witness :
    fmTypes.NodeId = 2
    ∧ sizeof fmTypes TimeSyncInitial = 24
    ∧ sizeof fmTypes TimeSyncInterNetwork = 20
    ∧ sizeof fmTypes TimeSyncCorrection = 10 :=
  have t := (time_sync_inter_network_is_initial_without_counter fmTypes).2 rfl
  ⟨rfl, t.1, t.2.1, t.2.2.1⟩

/-! ## The raw data payloads -/

/-- C6: the chunk count of a raw data Start and the chunk index of a raw data Chunk are
24-bit fields, so a value is kept unchanged exactly when it is below 2^24, and 2^24 itself
is stored as 0. The chunk count (bits 0 to 23) and the 8-bit protocol identifier (bits 24
to 31) fill one 32-bit word; with the 32-bit key identifier behind them the fixed part of
a Start is 8 bytes and the metadata begins at byte 8. The fixed part of a Chunk is 4 bytes
and its payload begins at byte 4. -/
theorem raw_data_chunk_fields_are_24_bit (w : FmTypes) :
    (layout w RawDataStartPayload =
        [ ⟨"numChunks", 0, 24, 1⟩,
          ⟨"protocolId", 24, 8, 1⟩,
          ⟨"fmKeyId", 32, 32, 1⟩,
          ⟨"metadata", 8 * 8, 8, 0⟩ ]
      ∧ 24 + 8 = 8 * CType.bytes w CType.u32
      ∧ SIZEOF_RAW_DATA_START_PAYLOAD = 8
      ∧ STATIC_ASSERT_SIZE w RawDataStartPayload SIZEOF_RAW_DATA_START_PAYLOAD
      ∧ NoPadding w RawDataStartPayload
      ∧ byteSpan (layout w RawDataStartPayload) "metadata" = some (8, 0))
    ∧ (layout w RawDataChunkPayload =
        [ ⟨"chunkId", 0, 24, 1⟩,
          ⟨"reserved", 24, 8, 1⟩,
          ⟨"payload", 8 * 4, 8, 1⟩ ]
      ∧ SIZEOF_RAW_DATA_CHUNK_PAYLOAD = 4
      ∧ STATIC_ASSERT_SIZE w RawDataChunkPayload (SIZEOF_RAW_DATA_CHUNK_PAYLOAD + 1)
      ∧ NoPadding w RawDataChunkPayload
      ∧ byteSpan (layout w RawDataChunkPayload) "payload" = some (4, 1))
    ∧ (∀ s ∈ [slotOf (layout w RawDataStartPayload) "numChunks",
              slotOf (layout w RawDataChunkPayload) "chunkId"],
        ∃ f, s = some f ∧ f.width = 24
          ∧ (∀ v, storeBits f.width v = v ↔ v < 2 ^ 24)
          ∧ storeBits f.width (2 ^ 24 - 1) = 2 ^ 24 - 1
          ∧ storeBits f.width (2 ^ 24) = 0) := by
  have hfit : ∀ v, storeBits 24 v = v ↔ v < 2 ^ 24 := by
    intro v
    unfold storeBits
    constructor
    · intro h
      rw [← h]
      exact Nat.mod_lt _ (by norm_num)
    · exact Nat.mod_eq_of_lt
  refine ⟨⟨?_, ?_, rfl, ?_, ?_, ?_⟩, ⟨?_, rfl, ?_, ?_, ?_⟩, ?_⟩
  · simp [layout, RawDataStartPayload, Member.placeAll, Member.place, Cursor.close,
      CType.bytes]
  · simp [CType.bytes]
  · simp [STATIC_ASSERT_SIZE, SIZEOF_RAW_DATA_START_PAYLOAD, sizeof, RawDataStartPayload,
      Member.placeAll, Member.place, Cursor.close, CType.bytes]
  · simp [NoPadding, contiguousFrom, declaredBits, Member.declaredBitsAll,
      Member.declaredBits, layout, sizeof, RawDataStartPayload, Member.placeAll, Member.place,
      Cursor.close, CType.bytes]
  · simp [byteSpan, slotOf, layout, RawDataStartPayload, Member.placeAll, Member.place,
      Cursor.close, CType.bytes]
  · simp [layout, RawDataChunkPayload, Member.placeAll, Member.place, Cursor.close,
      CType.bytes]
  · simp [STATIC_ASSERT_SIZE, SIZEOF_RAW_DATA_CHUNK_PAYLOAD, sizeof, RawDataChunkPayload,
      Member.placeAll, Member.place, Cursor.close, CType.bytes]
  · simp [NoPadding, contiguousFrom, declaredBits, Member.declaredBitsAll,
      Member.declaredBits, layout, sizeof, RawDataChunkPayload, Member.placeAll, Member.place,
      Cursor.close, CType.bytes]
  · simp [byteSpan, slotOf, layout, RawDataChunkPayload, Member.placeAll, Member.place,
      Cursor.close, CType.bytes]
  · intro s hs
    simp only [List.mem_cons, List.mem_singleton, List.not_mem_nil, or_false] at hs
    rcases hs with rfl | rfl
    · refine ⟨⟨"numChunks", 0, 24, 1⟩, ?_, rfl, hfit, ?_, ?_⟩
      · simp [slotOf, layout, RawDataStartPayload, Member.placeAll, Member.place,
          Cursor.close, CType.bytes]
      · simp [storeBits]
      · simp [storeBits]
    · refine ⟨⟨"chunkId", 0, 24, 1⟩, ?_, rfl, hfit, ?_, ?_⟩
      · simp [slotOf, layout, RawDataChunkPayload, Member.placeAll, Member.place,
          Cursor.close, CType.bytes]
      · simp [storeBits]
      · simp [storeBits]

/-- C7: the raw data report payload is three 32-bit words, 12 bytes and 96 bits without
padding, so that a mask over the three words has one bit for each index below 96: index
`i` has the bit `i % 32` of word `i / 32`, different indices have different bits and no
bit is left over. Report (3) and Report-Desired (5) are different action types that carry
this one payload struct. -/
theorem raw_data_report_carries_96_bits (w : FmTypes) :
    (layout w RawDataReportPayload = [⟨"missings", 0, 32, 3⟩]
      ∧ STATIC_ASSERT_SIZE w RawDataReportPayload 12
      ∧ NoPadding w RawDataReportPayload
      ∧ declaredBits w RawDataReportPayload = 96
      ∧ 8 * sizeof w RawDataReportPayload = 3 * 32)
    ∧ (∀ i, i < 96 ↔ (maskBit 32 i).1 < 3 ∧ (maskBit 32 i).2 < 32)
    ∧ (∀ i j, maskBit 32 i = maskBit 32 j → i = j)
    ∧ (∀ k b, k < 3 → b < 32 → ∃ i, i < 96 ∧ maskBit 32 i = (k, b))
    ∧ (RawDataActionType.REPORT.payload = some RawDataReportPayload
      ∧ RawDataActionType.REPORT_DESIRED.payload = some RawDataReportPayload
      ∧ RawDataActionType.REPORT.toU8 = 3 ∧ RawDataActionType.REPORT_DESIRED.toU8 = 5) := by
  refine ⟨⟨?_, ?_, ?_, ?_, ?_⟩, ?_, ?_, ?_, rfl, rfl, rfl, rfl⟩
  · simp [layout, RawDataReportPayload, Member.placeAll, Member.place, Cursor.close,
      CType.bytes]
  · simp [STATIC_ASSERT_SIZE, sizeof, RawDataReportPayload, Member.placeAll, Member.place,
      Cursor.close, CType.bytes]
  · simp [NoPadding, contiguousFrom, declaredBits, Member.declaredBitsAll,
      Member.declaredBits, layout, sizeof, RawDataReportPayload, Member.placeAll,
      Member.place, Cursor.close, CType.bytes]
  · simp [declaredBits, Member.declaredBitsAll, Member.declaredBits, RawDataReportPayload,
      CType.bytes]
  · simp [sizeof, RawDataReportPayload, Member.placeAll, Member.place, Cursor.close,
      CType.bytes]
  · intro i
    simp only [maskBit]
    omega
  · intro i j h
    simp only [maskBit, Prod.mk.injEq] at h
    omega
  · intro k b hk hb
    refine ⟨32 * k + b, by omega, ?_⟩
    simp only [maskBit, Prod.mk.injEq]
    omega

/-! ## The message type tags -/

/-- C8: bit 7 of the message type is reserved. Every enumerator of `MessageType` other
than `RESERVED_BIT_START` and `RESERVED_BIT_END` has a value below 128, bit 7 clear; the
two markers are 128 and 255, and an 8-bit tag lies between them exactly when its bit 7 is
set. -/
theorem message_type_bit7_reserved :
    (∀ m : MessageType, m ≠ .RESERVED_BIT_START → m ≠ .RESERVED_BIT_END →
        m.toU8 < 128 ∧ bitOf m.toU8 7 = false)
    ∧ MessageType.RESERVED_BIT_START.toU8 = 128
    ∧ MessageType.RESERVED_BIT_END.toU8 = 255
    ∧ (∀ m : MessageType, m.toU8 < 256 ∧ m ∈ MessageType.all)
    ∧ (∀ v, v < 256 →
        ((MessageType.RESERVED_BIT_START.toU8 ≤ v ∧ v ≤ MessageType.RESERVED_BIT_END.toU8)
          ↔ bitOf v 7 = true)) := by
  refine ⟨?_, rfl, rfl, ?_, ?_⟩
  · intro m h1 h2
    cases m <;> first | exact absurd rfl h1 | exact absurd rfl h2 | decide
  · intro m
    cases m <;> decide
  · intro v hv
    simp only [MessageType.toU8, bitOf, decide_eq_true_eq]
    omega

/-- C9: the module message tags are the named tags of one range. The range markers are
50 and 59 and alias `MODULE_CONFIG` and `COMPONENT_SENSE`; an enumerator other than the
two markers is one of the eight module message types exactly when its value lies in
[50, 59], and the value of any enumerator lies in [50, 59] exactly when it is the value of
one of the eight. `TIME_SYNC` = 60 and `SIG_MESH_SIMPLE` = 35 are outside the range. The
values 56 and 57 inside the range are assigned to no enumerator. -/
theorem module_messages_one_range :
    (MessageType.MODULE_MESSAGES_START.toU8 = 50 ∧ MessageType.MODULE_MESSAGES_END.toU8 = 59
      ∧ MessageType.MODULE_MESSAGES_START.toU8 = MessageType.MODULE_CONFIG.toU8
      ∧ MessageType.MODULE_MESSAGES_END.toU8 = MessageType.COMPONENT_SENSE.toU8)
    ∧ (∀ m : MessageType, m ≠ .MODULE_MESSAGES_START → m ≠ .MODULE_MESSAGES_END →
        (m ∈ moduleMessages ↔
          MessageType.MODULE_MESSAGES_START.toU8 ≤ m.toU8
            ∧ m.toU8 ≤ MessageType.MODULE_MESSAGES_END.toU8))
    ∧ (∀ m : MessageType, (∃ k ∈ moduleMessages, k.toU8 = m.toU8) ↔
          50 ≤ m.toU8 ∧ m.toU8 ≤ 59)
    ∧ moduleMessages.map MessageType.toU8 = [50, 51, 52, 53, 54, 55, 58, 59]
    ∧ (MessageType.TIME_SYNC.toU8 = 60 ∧ MessageType.SIG_MESH_SIMPLE.toU8 = 35
      ∧ MessageType.TIME_SYNC ∉ moduleMessages ∧ MessageType.SIG_MESH_SIMPLE ∉ moduleMessages)
    ∧ (∀ m : MessageType, m.toU8 ≠ 56 ∧ m.toU8 ≠ 57) := by
  refine ⟨⟨rfl, rfl, rfl, rfl⟩, ?_, ?_, rfl, ⟨rfl, rfl, by decide, by decide⟩, ?_⟩
  · intro m h1 h2
    cases m <;> first | exact absurd rfl h1 | exact absurd rfl h2 | decide
  · intro m
    cases m <;> decide
  · intro m
    cases m <;> decide

/-! ## The module message headers -/

/-- C10: with 2-byte node identifiers, a 1-byte `ModuleId` and a 4-byte `VendorModuleId`,
for every `MAX_DATA_SIZE_PER_WRITE`: `ConnPacketModule`, `ConnPacketModuleStart`,
`RawDataHeader` and `ComponentMessageHeader` begin with the same 8 bytes, the 5-byte
packet header, the 1-byte module identifier at byte 5, the request handle at byte 6 and
the action type at byte 7; `ConnPacketModuleVendor`, `RawDataHeaderVendor` and
`ComponentMessageHeaderVendor` begin with the same 11 bytes, the packet header, the 4-byte
module identifier at byte 5, the request handle at byte 9 and the action type at
byte 10. -/
theorem module_headers_share_one_shape (w : FmTypes) (MAX_DATA_SIZE_PER_WRITE : Nat)
    (hNode : w.NodeId = 2) (hModule : w.ModuleId = 1) (hVendor : w.VendorModuleId = 4) :
    (∀ S ∈ [ConnPacketModule MAX_DATA_SIZE_PER_WRITE, ConnPacketModuleStart, RawDataHeader,
            ComponentMessageHeader],
        shape ((layout w S).take 3) = shape (layout w ConnPacketHeader)
        ∧ ((layout w S).drop 3).take 3 =
            [ ⟨"moduleId", 8 * 5, 8, 1⟩,
              ⟨"requestHandle", 8 * 6, 8, 1⟩,
              ⟨"actionType", 8 * 7, 8, 1⟩ ]
        ∧ shape ((layout w S).take 6) = shape (layout w ConnPacketModuleStart)
        ∧ contiguousFrom 0 ((layout w S).take 6) = true
        ∧ byteSpan (layout w S) "moduleId" = some (5, 1)
        ∧ byteSpan (layout w S) "requestHandle" = some (6, 1)
        ∧ byteSpan (layout w S) "actionType" = some (7, 1))
    ∧ (sizeof w ConnPacketModuleStart = 8
      ∧ STATIC_ASSERT_SIZE w ConnPacketModuleStart SIZEOF_CONN_PACKET_MODULE
      ∧ STATIC_ASSERT_SIZE w RawDataHeader SIZEOF_CONN_PACKET_MODULE)
    ∧ (∀ S ∈ [ConnPacketModuleVendor MAX_DATA_SIZE_PER_WRITE, RawDataHeaderVendor,
              ComponentMessageHeaderVendor],
        shape ((layout w S).take 3) = shape (layout w ConnPacketHeader)
        ∧ ((layout w S).drop 3).take 3 =
            [ ⟨"moduleId", 8 * 5, 8 * 4, 1⟩,
              ⟨"requestHandle", 8 * 9, 8, 1⟩,
              ⟨"actionType", 8 * 10, 8, 1⟩ ]
        ∧ shape ((layout w S).take 6) = shape (layout w RawDataHeaderVendor)
        ∧ contiguousFrom 0 ((layout w S).take 6) = true
        ∧ byteSpan (layout w S) "moduleId" = some (5, 4)
        ∧ byteSpan (layout w S) "requestHandle" = some (9, 1)
        ∧ byteSpan (layout w S) "actionType" = some (10, 1))
    ∧ (sizeof w RawDataHeaderVendor = 11
      ∧ STATIC_ASSERT_SIZE w RawDataHeaderVendor SIZEOF_CONN_PACKET_MODULE_VENDOR) := by
  obtain ⟨n, ci, cs, ni, k, m, v⟩ := w
  simp only at hNode hModule hVendor
  subst hNode hModule hVendor
  refine ⟨?_, ⟨?_, ?_, ?_⟩, ?_, ?_, ?_⟩
  · intro S hS
    simp only [List.mem_cons, List.mem_singleton, List.not_mem_nil, or_false] at hS
    rcases hS with rfl | rfl | rfl | rfl
    all_goals
      simp [shape, contiguousFrom, byteSpan, slotOf, layout, ConnPacketModule,
        ConnPacketModuleStart, RawDataHeader, ComponentMessageHeader,
        CONN_PACKET_MODULE_ENTRIES, ConnPacketHeader, Member.placeAll, Member.place,
        Cursor.close, CType.bytes]
  · simp [sizeof, ConnPacketModuleStart, CONN_PACKET_MODULE_ENTRIES, ConnPacketHeader,
      Member.placeAll, Member.place, Cursor.close, CType.bytes]
  · simp [STATIC_ASSERT_SIZE, SIZEOF_CONN_PACKET_MODULE, SIZEOF_CONN_PACKET_HEADER, sizeof,
      ConnPacketModuleStart, CONN_PACKET_MODULE_ENTRIES, ConnPacketHeader, Member.placeAll,
      Member.place, Cursor.close, CType.bytes]
  · simp [STATIC_ASSERT_SIZE, SIZEOF_CONN_PACKET_MODULE, SIZEOF_CONN_PACKET_HEADER, sizeof,
      RawDataHeader, ConnPacketHeader, Member.placeAll, Member.place, Cursor.close,
      CType.bytes]
  · intro S hS
    simp only [List.mem_cons, List.mem_singleton, List.not_mem_nil, or_false] at hS
    rcases hS with rfl | rfl | rfl
    all_goals
      simp [shape, contiguousFrom, byteSpan, slotOf, layout, ConnPacketModuleVendor,
        RawDataHeaderVendor, ComponentMessageHeaderVendor, ConnPacketHeader,
        Member.placeAll, Member.place, Cursor.close, CType.bytes]
  · simp [sizeof, RawDataHeaderVendor, ConnPacketHeader, Member.placeAll, Member.place,
      Cursor.close, CType.bytes]
  · simp [STATIC_ASSERT_SIZE, SIZEOF_CONN_PACKET_MODULE_VENDOR, SIZEOF_CONN_PACKET_HEADER,
      sizeof, RawDataHeaderVendor, ConnPacketHeader, Member.placeAll, Member.place,
      Cursor.close, CType.bytes]

/-- C10 at the widths of `fmTypes` and a write size of 20 bytes: the raw data header has
the module identifier, request handle and action type at bytes 5, 6 and 7, and the vendor
module packet has them at bytes 5, 9 and 10. -/
theorem module_headers_share_one_shape_witness :
    (fmTypes.NodeId = 2 ∧ fmTypes.ModuleId = 1 ∧ fmTypes.VendorModuleId = 4)
    ∧ ((layout fmTypes RawDataHeader).drop 3).take 3 =
        [ ⟨"moduleId", 8 * 5, 8, 1⟩,
          ⟨"requestHandle", 8 * 6, 8, 1⟩,
          ⟨"actionType", 8 * 7, 8, 1⟩ ]
    ∧ ((layout fmTypes (ConnPacketModuleVendor 20)).drop 3).take 3 =
        [ ⟨"moduleId", 8 * 5, 8 * 4, 1⟩,
          ⟨"requestHandle", 8 * 9, 8, 1⟩,
          ⟨"actionType", 8 * 10, 8, 1⟩ ] :=
  have t := module_headers_share_one_shape fmTypes 20 rfl rfl rfl
  ⟨⟨rfl, rfl, rfl⟩,
    (t.1 RawDataHeader (by simp)).2.1,
    (t.2.2.1 (ConnPacketModuleVendor 20) (by simp)).2.1⟩

/-! ## The raw data error payload -/

/-- C11: the reason of a raw data Error is one of the three protocol-defined codes,
unexpected end of transmission = 0, not in a transmission = 1, malformed message = 2, or a
code of the user range. Every protocol-defined code is below
`START_OF_USER_DEFINED_ERRORS` = 200, the user range from there to `LAST_ID` = 255 is
exactly the 8-bit values from 200 on, and no protocol-defined code is in it. The
destination is sender = 1, receiver = 2 or both = 3, and the Error payload is 2 bytes, the
reason at byte 0 and the destination at byte 1. -/
theorem raw_data_error_reasons (w : FmTypes) :
    (protocolDefinedErrors.map RawDataErrorType.toU8 = [0, 1, 2]
      ∧ RawDataErrorType.UNEXPECTED_END_OF_TRANSMISSION.toU8 = 0
      ∧ RawDataErrorType.NOT_IN_A_TRANSMISSION.toU8 = 1
      ∧ RawDataErrorType.MALFORMED_MESSAGE.toU8 = 2
      ∧ RawDataErrorType.START_OF_USER_DEFINED_ERRORS.toU8 = 200
      ∧ RawDataErrorType.LAST_ID.toU8 = 255)
    ∧ (∀ e ∈ protocolDefinedErrors,
        e.toU8 < RawDataErrorType.START_OF_USER_DEFINED_ERRORS.toU8)
    ∧ (∀ v, isUserDefinedError v = true ↔ 200 ≤ v ∧ v ≤ 255)
    ∧ (∀ v, v < 256 → (isUserDefinedError v = true ↔ 200 ≤ v))
    ∧ (∀ e ∈ protocolDefinedErrors, isUserDefinedError e.toU8 = false)
    ∧ (∀ e : RawDataErrorType, e ∈ protocolDefinedErrors ∨ isUserDefinedError e.toU8 = true)
    ∧ ((∀ d : RawDataErrorDestination, d.toU8 = 1 ∨ d.toU8 = 2 ∨ d.toU8 = 3)
      ∧ RawDataErrorDestination.SENDER.toU8 = 1
      ∧ RawDataErrorDestination.RECEIVER.toU8 = 2
      ∧ RawDataErrorDestination.BOTH.toU8 = 3)
    ∧ (STATIC_ASSERT_SIZE w RawDataErrorPayload 2
      ∧ NoPadding w RawDataErrorPayload
      ∧ layout w RawDataErrorPayload = [⟨"error", 0, 8, 1⟩, ⟨"destination", 8, 8, 1⟩]) := by
  refine ⟨⟨rfl, rfl, rfl, rfl, rfl, rfl⟩, by decide, ?_, ?_, by decide, ?_,
    ⟨?_, rfl, rfl, rfl⟩, ?_, ?_, ?_⟩
  · intro v
    simp [isUserDefinedError, RawDataErrorType.toU8]
  · intro v hv
    simp only [isUserDefinedError, RawDataErrorType.toU8, decide_eq_true_eq]
    omega
  · intro e
    cases e <;> decide
  · intro d
    cases d <;> decide
  · simp [STATIC_ASSERT_SIZE, sizeof, RawDataErrorPayload, Member.placeAll, Member.place,
      Cursor.close, CType.bytes]
  · simp [NoPadding, contiguousFrom, declaredBits, Member.declaredBitsAll,
      Member.declaredBits, layout, sizeof, RawDataErrorPayload, Member.placeAll, Member.place,
      Cursor.close, CType.bytes]
  · simp [layout, RawDataErrorPayload, Member.placeAll, Member.place, Cursor.close,
      CType.bytes]

/-! ## Bit-fields -/

/-- C12: no layout with bit-fields leaves bits unaccounted for. The structs of the header
that declare bit-fields are the Info-Update payload (1+1+6 bits of `u8`), Encryption Start
(2+6 of `u8`), raw data Start and Chunk (24+8 of `u32`), the periodic asset entry
(1+1+1+1+4 of `u8`) and the standstill asset entry (1+1+1+5 of `u8`); in every struct of
the header every run of adjacent bit-fields fills its storage unit exactly, and these six
structs are laid out without padding. With ClusterId 4 and ClusterSize 2 bytes wide the
Info-Update payload is 9 bytes and its last byte, byte 8, holds the two 1-bit flags at
bits 0 and 1 and the 6 reserved bits. -/
theorem bit_fields_fill_their_storage_units (w : FmTypes)
    (MAX_DATA_SIZE_PER_WRITE SIZEOF_ADV_STRUCTURE_ASSET_SERVICE_DATA_PAYLOAD : Nat) :
    (((declaredStructs MAX_DATA_SIZE_PER_WRITE
          SIZEOF_ADV_STRUCTURE_ASSET_SERVICE_DATA_PAYLOAD).filter
        (fun d => !(bitRuns d.2).isEmpty)).map (fun d => d.1) =
        [ "ConnPacketPayloadClusterInfoUpdate", "ConnPacketEncryptCustomStart",
          "RawDataStartPayload", "RawDataChunkPayload", "PeriodicAssetMessageEntry",
          "StandstillAssetMessageEntry" ])
    ∧ (∀ d ∈ declaredStructs MAX_DATA_SIZE_PER_WRITE
          SIZEOF_ADV_STRUCTURE_ASSET_SERVICE_DATA_PAYLOAD,
        ∀ run ∈ bitRuns d.2, fillsUnit w run = true)
    ∧ (bitRuns ConnPacketPayloadClusterInfoUpdate = [[(.u8, 1), (.u8, 1), (.u8, 6)]]
      ∧ bitRuns ConnPacketEncryptCustomStart = [[(.u8, 2), (.u8, 6)]]
      ∧ bitRuns RawDataStartPayload = [[(.u32, 24), (.u32, 8)]]
      ∧ bitRuns RawDataChunkPayload = [[(.u32, 24), (.u32, 8)]]
      ∧ bitRuns (PeriodicAssetMessageEntry SIZEOF_ADV_STRUCTURE_ASSET_SERVICE_DATA_PAYLOAD) =
          [[(.u8, 1), (.u8, 1), (.u8, 1), (.u8, 1), (.u8, 4)]]
      ∧ bitRuns StandstillAssetMessageEntry = [[(.u8, 1), (.u8, 1), (.u8, 1), (.u8, 5)]])
    ∧ (1 + 1 + 6 = 8 ∧ 2 + 6 = 8 ∧ 24 + 8 = 32 ∧ 1 + 1 + 1 + 1 + 4 = 8 ∧ 1 + 1 + 1 + 5 = 8)
    ∧ (NoPadding w ConnPacketPayloadClusterInfoUpdate
      ∧ NoPadding w ConnPacketEncryptCustomStart
      ∧ NoPadding w RawDataStartPayload
      ∧ NoPadding w RawDataChunkPayload
      ∧ NoPadding w (PeriodicAssetMessageEntry SIZEOF_ADV_STRUCTURE_ASSET_SERVICE_DATA_PAYLOAD)
      ∧ NoPadding w StandstillAssetMessageEntry)
    ∧ (w.ClusterId = 4 → w.ClusterSize = 2 →
        STATIC_ASSERT_SIZE w ConnPacketPayloadClusterInfoUpdate
          SIZEOF_CONN_PACKET_PAYLOAD_CLUSTER_INFO_UPDATE
        ∧ SIZEOF_CONN_PACKET_PAYLOAD_CLUSTER_INFO_UPDATE = 9
        ∧ (layout w ConnPacketPayloadClusterInfoUpdate).drop 3 =
            [ ⟨"connectionMasterBitHandover", 8 * 8, 1, 1⟩,
              ⟨"counter", 8 * 8 + 1, 1, 1⟩,
              ⟨"reserved", 8 * 8 + 2, 6, 1⟩ ]) := by
  obtain ⟨n, ci, cs, ni, k, m, v⟩ := w
  refine ⟨rfl, ?_, ⟨rfl, rfl, rfl, rfl, rfl, rfl⟩, ⟨rfl, rfl, rfl, rfl, rfl⟩,
    ⟨?_, ?_, ?_, ?_, ?_, ?_⟩, ?_⟩
  · intro d hd run hrun
    simp only [declaredStructs, List.mem_cons, List.mem_singleton, List.not_mem_nil,
      or_false] at hd
    rcases hd with h | h | h | h | h | h | h | h | h | h | h | h | h | h | h | h | h | h | h
      | h | h | h | h | h | h | h | h | h | h | h | h | h | h | h | h | h | h | h | h | h
      | h | h | h | h | h | h | h | h | h | h | h
    all_goals
      subst h
      simp [bitRuns, bitRunsFrom, ConnPacketHeader, ConnPacketSplitHeader,
        ConnPacketPayloadClusterWelcome, ConnPacketClusterWelcome,
        ConnPacketPayloadClusterAck1, ConnPacketClusterAck1, ConnPacketPayloadClusterAck2,
        ConnPacketClusterAck2, ConnPacketPayloadClusterInfoUpdate,
        ConnPacketClusterInfoUpdate, ConnPacketReconnect, ConnPacketEncryptCustomStart,
        ConnPacketEncryptCustomANonce, ConnPacketEncryptCustomSNonce,
        ConnPacketEncryptCustomDone, ConnPacketModule, CONN_PACKET_MODULE_ENTRIES,
        ConnPacketModuleStart, ConnPacketModuleVendor, ComponentMessageHeader,
        ConnPacketComponentMessage, ComponentMessageHeaderVendor,
        ConnPacketComponentMessageVendor, RawDataHeader, RawDataHeaderVendor, RawDataLight,
        RawDataLightVendor, RawDataStartPayload, RawDataErrorPayload, RawDataChunkPayload,
        RawDataReportPayload, CapabilityEntry, CapabilityHeader, CapabilityRequestedMessage,
        CapabilityEntryMessage, CapabilityEndMessage, connPacketUpdateTimestamp,
        TimeSyncHeader, TimeSyncInitial, TimeSyncInterNetwork, TimeSyncInitialReply,
        TimeSyncCorrection, TimeSyncCorrectionReply, EnrolledNodesHeader,
        EnrolledNodesMessage, ConnPacketPayloadData1, ConnPacketData1,
        ConnPacketPayloadClcData, ConnPacketDataClcData, ConnPacketUpdateConnectionInterval,
        PeriodicAssetMessageEntry, StandstillAssetMessageEntry] at hrun
      try (subst hrun; simp [fillsUnit, CType.bytes])
  · simp [NoPadding, contiguousFrom, declaredBits, Member.declaredBitsAll,
      Member.declaredBits, layout, sizeof, ConnPacketPayloadClusterInfoUpdate,
      Member.placeAll, Member.place, Cursor.close, CType.bytes]
    omega
  · simp [NoPadding, contiguousFrom, declaredBits, Member.declaredBitsAll,
      Member.declaredBits, layout, sizeof, ConnPacketEncryptCustomStart, ConnPacketHeader,
      Member.placeAll, Member.place, Cursor.close, CType.bytes]
    omega
  · simp [NoPadding, contiguousFrom, declaredBits, Member.declaredBitsAll,
      Member.declaredBits, layout, sizeof, RawDataStartPayload, Member.placeAll, Member.place,
      Cursor.close, CType.bytes]
  · simp [NoPadding, contiguousFrom, declaredBits, Member.declaredBitsAll,
      Member.declaredBits, layout, sizeof, RawDataChunkPayload, Member.placeAll, Member.place,
      Cursor.close, CType.bytes]
  · simp [NoPadding, contiguousFrom, declaredBits, Member.declaredBitsAll,
      Member.declaredBits, layout, sizeof, PeriodicAssetMessageEntry, Member.placeAll,
      Member.place, Cursor.close, CType.bytes]
    omega
  · simp [NoPadding, contiguousFrom, declaredBits, Member.declaredBitsAll,
      Member.declaredBits, layout, sizeof, StandstillAssetMessageEntry, Member.placeAll,
      Member.place, Cursor.close, CType.bytes]
    omega
  · intro hId hSize
    simp only at hId hSize
    subst hId hSize
    refine ⟨?_, rfl, ?_⟩
    · simp [STATIC_ASSERT_SIZE, SIZEOF_CONN_PACKET_PAYLOAD_CLUSTER_INFO_UPDATE, sizeof,
        ConnPacketPayloadClusterInfoUpdate, Member.placeAll, Member.place, Cursor.close,
        CType.bytes]
    · simp [layout, ConnPacketPayloadClusterInfoUpdate, Member.placeAll, Member.place,
        Cursor.close, CType.bytes]

/-! ## What the size assertions determine -/

/-- C14: the size assertions fix the widths of the typedefs of `FmTypes.h`. Whatever
`MAX_DATA_SIZE_PER_WRITE` is, widths under which the assertions on `ConnPacketHeader` (5),
`ConnPacketPayloadClusterAck1` (3), `ConnPacketPayloadClusterAck2` (8),
`ConnPacketPayloadClusterWelcome` (13), `ConnPacketEncryptCustomStart` (11),
`ConnPacketModuleStart` (8) and `ConnPacketModuleVendor` (11 + data) hold are NodeId 2,
ClusterSize 2, ClusterId 4, NetworkId 2, FmKeyId 4, ModuleId 1 and VendorModuleId 4. -/
theorem size_assertions_determine_widths (w : FmTypes) (MAX_DATA_SIZE_PER_WRITE : Nat)
    (hHeader : STATIC_ASSERT_SIZE w ConnPacketHeader SIZEOF_CONN_PACKET_HEADER)
    (hAck1 : STATIC_ASSERT_SIZE w ConnPacketPayloadClusterAck1
      SIZEOF_CONN_PACKET_PAYLOAD_CLUSTER_ACK_1)
    (hAck2 : STATIC_ASSERT_SIZE w ConnPacketPayloadClusterAck2
      SIZEOF_CONN_PACKET_PAYLOAD_CLUSTER_ACK_2)
    (hWelcome : STATIC_ASSERT_SIZE w ConnPacketPayloadClusterWelcome
      SIZEOF_CONN_PACKET_PAYLOAD_CLUSTER_WELCOME_WITH_NETWORK_ID)
    (hStart : STATIC_ASSERT_SIZE w ConnPacketEncryptCustomStart
      SIZEOF_CONN_PACKET_ENCRYPT_CUSTOM_START)
    (hModule : STATIC_ASSERT_SIZE w ConnPacketModuleStart SIZEOF_CONN_PACKET_MODULE)
    (hVendor : STATIC_ASSERT_SIZE w (ConnPacketModuleVendor MAX_DATA_SIZE_PER_WRITE)
      (SIZEOF_CONN_PACKET_MODULE_VENDOR
        + (MAX_DATA_SIZE_PER_WRITE - SIZEOF_CONN_PACKET_HEADER - 7))) :
    w.NodeId = 2 ∧ w.ClusterSize = 2 ∧ w.ClusterId = 4 ∧ w.NetworkId = 2 ∧ w.FmKeyId = 4
    ∧ w.ModuleId = 1 ∧ w.VendorModuleId = 4 ∧ w = fmTypes := by
  obtain ⟨n, ci, cs, ni, k, m, v⟩ := w
  simp [STATIC_ASSERT_SIZE, sizeof, ConnPacketHeader, SIZEOF_CONN_PACKET_HEADER,
    Member.placeAll, Member.place, Cursor.close, CType.bytes] at hHeader
  simp [STATIC_ASSERT_SIZE, sizeof, ConnPacketPayloadClusterAck1,
    SIZEOF_CONN_PACKET_PAYLOAD_CLUSTER_ACK_1, Member.placeAll, Member.place, Cursor.close,
    CType.bytes] at hAck1
  simp [STATIC_ASSERT_SIZE, sizeof, ConnPacketPayloadClusterAck2,
    SIZEOF_CONN_PACKET_PAYLOAD_CLUSTER_ACK_2, Member.placeAll, Member.place, Cursor.close,
    CType.bytes] at hAck2
  simp [STATIC_ASSERT_SIZE, sizeof, ConnPacketPayloadClusterWelcome,
    SIZEOF_CONN_PACKET_PAYLOAD_CLUSTER_WELCOME_WITH_NETWORK_ID, Member.placeAll,
    Member.place, Cursor.close, CType.bytes] at hWelcome
  simp [STATIC_ASSERT_SIZE, sizeof, ConnPacketEncryptCustomStart, ConnPacketHeader,
    SIZEOF_CONN_PACKET_ENCRYPT_CUSTOM_START, SIZEOF_CONN_PACKET_HEADER, Member.placeAll,
    Member.place, Cursor.close, CType.bytes] at hStart
  simp [STATIC_ASSERT_SIZE, sizeof, ConnPacketModuleStart, CONN_PACKET_MODULE_ENTRIES,
    ConnPacketHeader, SIZEOF_CONN_PACKET_MODULE, SIZEOF_CONN_PACKET_HEADER, Member.placeAll,
    Member.place, Cursor.close, CType.bytes] at hModule
  simp [STATIC_ASSERT_SIZE, sizeof, ConnPacketModuleVendor, ConnPacketHeader,
    SIZEOF_CONN_PACKET_MODULE_VENDOR, SIZEOF_CONN_PACKET_HEADER, Member.placeAll,
    Member.place, Cursor.close, CType.bytes] at hVendor
  have hn : n = 2 := by omega
  have hcs : cs = 2 := by omega
  have hci : ci = 4 := by omega
  have hni : ni = 2 := by omega
  have hk : k = 4 := by omega
  have hm : m = 1 := by omega
  have hv : v = 4 := by omega
  subst hn hcs hci hni hk hm hv
  exact ⟨rfl, rfl, rfl, rfl, rfl, rfl, rfl, rfl⟩

/-- C14 at the widths of `fmTypes` and a write size of 20 bytes: the seven assertions hold
there. -/
theorem size_assertions_determine_widths_witness :
    (STATIC_ASSERT_SIZE fmTypes ConnPacketHeader SIZEOF_CONN_PACKET_HEADER
      ∧ STATIC_ASSERT_SIZE fmTypes ConnPacketPayloadClusterWelcome
          SIZEOF_CONN_PACKET_PAYLOAD_CLUSTER_WELCOME_WITH_NETWORK_ID
      ∧ STATIC_ASSERT_SIZE fmTypes (ConnPacketModuleVendor 20)
          (SIZEOF_CONN_PACKET_MODULE_VENDOR + (20 - SIZEOF_CONN_PACKET_HEADER - 7)))
    ∧ fmTypes.NodeId = 2 ∧ fmTypes.VendorModuleId = 4 :=
  have t := size_assertions_determine_widths fmTypes 20 (by decide) (by decide) (by decide)
    (by decide) (by decide) (by decide) (by decide)
  ⟨⟨by decide, by decide, by decide⟩, t.1, t.2.2.2.2.2.2.1⟩

/-! ## Packets with an embedded data area -/

/-- C15: no packet struct with an embedded data area is larger than one transport write.
With 2-byte node identifiers, a 1-byte `ModuleId` and a 4-byte `VendorModuleId`, for every
`MAX_DATA_SIZE_PER_WRITE` of at least 12: `ConnPacketModule` is 8 + (MAX - 5 - 4) and
`ConnPacketModuleVendor` is 11 + (MAX - 5 - 7) bytes, both MAX - 1; `ConnPacketData1`
and `ConnPacketDataClcData` are MAX bytes; all four sizes are what the header asserts
and at most MAX. -/
theorem data_packets_fit_one_write (w : FmTypes) (MAX_DATA_SIZE_PER_WRITE : Nat)
    (hNode : w.NodeId = 2) (hModule : w.ModuleId = 1) (hVendor : w.VendorModuleId = 4)
    (hMax : 12 ≤ MAX_DATA_SIZE_PER_WRITE) :
    (sizeof w (ConnPacketModule MAX_DATA_SIZE_PER_WRITE) = 8 + (MAX_DATA_SIZE_PER_WRITE - 5 - 4)
      ∧ sizeof w (ConnPacketModule MAX_DATA_SIZE_PER_WRITE) = MAX_DATA_SIZE_PER_WRITE - 1
      ∧ STATIC_ASSERT_SIZE w (ConnPacketModule MAX_DATA_SIZE_PER_WRITE)
          (SIZEOF_CONN_PACKET_MODULE + (MAX_DATA_SIZE_PER_WRITE - SIZEOF_CONN_PACKET_HEADER - 4)))
    ∧ (sizeof w (ConnPacketModuleVendor MAX_DATA_SIZE_PER_WRITE) =
          11 + (MAX_DATA_SIZE_PER_WRITE - 5 - 7)
      ∧ sizeof w (ConnPacketModuleVendor MAX_DATA_SIZE_PER_WRITE) = MAX_DATA_SIZE_PER_WRITE - 1
      ∧ STATIC_ASSERT_SIZE w (ConnPacketModuleVendor MAX_DATA_SIZE_PER_WRITE)
          (SIZEOF_CONN_PACKET_MODULE_VENDOR
            + (MAX_DATA_SIZE_PER_WRITE - SIZEOF_CONN_PACKET_HEADER - 7)))
    ∧ (sizeof w (ConnPacketData1 MAX_DATA_SIZE_PER_WRITE) = MAX_DATA_SIZE_PER_WRITE
      ∧ STATIC_ASSERT_SIZE w (ConnPacketData1 MAX_DATA_SIZE_PER_WRITE)
          (SIZEOF_CONN_PACKET_DATA_1 MAX_DATA_SIZE_PER_WRITE)
      ∧ STATIC_ASSERT_SIZE w (ConnPacketPayloadData1 MAX_DATA_SIZE_PER_WRITE)
          (SIZEOF_CONN_PACKET_PAYLOAD_DATA_1 MAX_DATA_SIZE_PER_WRITE))
    ∧ (sizeof w (ConnPacketDataClcData MAX_DATA_SIZE_PER_WRITE) = MAX_DATA_SIZE_PER_WRITE
      ∧ STATIC_ASSERT_SIZE w (ConnPacketDataClcData MAX_DATA_SIZE_PER_WRITE)
          (SIZEOF_CONN_PACKET_CLC_DATA MAX_DATA_SIZE_PER_WRITE)
      ∧ STATIC_ASSERT_SIZE w (ConnPacketPayloadClcData MAX_DATA_SIZE_PER_WRITE)
          (SIZEOF_CONN_PACKET_PAYLOAD_CLC_DATA MAX_DATA_SIZE_PER_WRITE))
    ∧ (sizeof w (ConnPacketModule MAX_DATA_SIZE_PER_WRITE) ≤ MAX_DATA_SIZE_PER_WRITE
      ∧ sizeof w (ConnPacketModuleVendor MAX_DATA_SIZE_PER_WRITE) ≤ MAX_DATA_SIZE_PER_WRITE
      ∧ sizeof w (ConnPacketData1 MAX_DATA_SIZE_PER_WRITE) ≤ MAX_DATA_SIZE_PER_WRITE
      ∧ sizeof w (ConnPacketDataClcData MAX_DATA_SIZE_PER_WRITE) ≤ MAX_DATA_SIZE_PER_WRITE) := by
  obtain ⟨n, ci, cs, ni, k, m, v⟩ := w
  simp only at hNode hModule hVendor
  subst hNode hModule hVendor
  have hM : sizeof ⟨2, ci, cs, ni, k, 1, 4⟩ (ConnPacketModule MAX_DATA_SIZE_PER_WRITE) =
      MAX_DATA_SIZE_PER_WRITE - 1 := by
    simp [sizeof, ConnPacketModule, CONN_PACKET_MODULE_ENTRIES, ConnPacketHeader,
      SIZEOF_CONN_PACKET_HEADER, Member.placeAll, Member.place, Cursor.close, CType.bytes]
    omega
  have hV : sizeof ⟨2, ci, cs, ni, k, 1, 4⟩ (ConnPacketModuleVendor MAX_DATA_SIZE_PER_WRITE) =
      MAX_DATA_SIZE_PER_WRITE - 1 := by
    simp [sizeof, ConnPacketModuleVendor, ConnPacketHeader,
      SIZEOF_CONN_PACKET_HEADER, Member.placeAll, Member.place, Cursor.close, CType.bytes]
    omega
  have hD : sizeof ⟨2, ci, cs, ni, k, 1, 4⟩ (ConnPacketData1 MAX_DATA_SIZE_PER_WRITE) =
      MAX_DATA_SIZE_PER_WRITE := by
    simp [sizeof, ConnPacketData1, ConnPacketPayloadData1, SIZEOF_CONN_PACKET_PAYLOAD_DATA_1,
      ConnPacketHeader, SIZEOF_CONN_PACKET_HEADER, Member.placeAll, Member.place,
      Cursor.close, CType.bytes]
    omega
  have hC : sizeof ⟨2, ci, cs, ni, k, 1, 4⟩ (ConnPacketDataClcData MAX_DATA_SIZE_PER_WRITE) =
      MAX_DATA_SIZE_PER_WRITE := by
    simp [sizeof, ConnPacketDataClcData, ConnPacketPayloadClcData,
      SIZEOF_CONN_PACKET_PAYLOAD_CLC_DATA, ConnPacketHeader, SIZEOF_CONN_PACKET_HEADER,
      Member.placeAll, Member.place, Cursor.close, CType.bytes]
    omega
  refine ⟨⟨?_, hM, ?_⟩, ⟨?_, hV, ?_⟩, ⟨hD, ?_, ?_⟩, ⟨hC, ?_, ?_⟩, ?_, ?_, ?_, ?_⟩
  · rw [hM]; omega
  · simp only [STATIC_ASSERT_SIZE, hM, SIZEOF_CONN_PACKET_MODULE, SIZEOF_CONN_PACKET_HEADER]
    omega
  · rw [hV]; omega
  · simp only [STATIC_ASSERT_SIZE, hV, SIZEOF_CONN_PACKET_MODULE_VENDOR,
      SIZEOF_CONN_PACKET_HEADER]
    omega
  · simp only [STATIC_ASSERT_SIZE, hD, SIZEOF_CONN_PACKET_DATA_1,
      SIZEOF_CONN_PACKET_PAYLOAD_DATA_1, SIZEOF_CONN_PACKET_HEADER]
    omega
  · simp [STATIC_ASSERT_SIZE, sizeof, ConnPacketPayloadData1,
      SIZEOF_CONN_PACKET_PAYLOAD_DATA_1, SIZEOF_CONN_PACKET_HEADER, Member.placeAll,
      Member.place, Cursor.close, CType.bytes]
    omega
  · simp only [STATIC_ASSERT_SIZE, hC, SIZEOF_CONN_PACKET_CLC_DATA,
      SIZEOF_CONN_PACKET_PAYLOAD_CLC_DATA, SIZEOF_CONN_PACKET_HEADER]
    omega
  · simp [STATIC_ASSERT_SIZE, sizeof, ConnPacketPayloadClcData,
      SIZEOF_CONN_PACKET_PAYLOAD_CLC_DATA, SIZEOF_CONN_PACKET_HEADER, Member.placeAll,
      Member.place, Cursor.close, CType.bytes]
  · rw [hM]; omega
  · rw [hV]; omega
  · rw [hD]
  · rw [hC]

/-- C15 at the widths of `fmTypes` and a write size of 20 bytes: the two module packets
are 19 bytes and the two data packets 20 bytes. -/
theorem data_packets_fit_one_write_witness :
    (fmTypes.NodeId = 2 ∧ fmTypes.ModuleId = 1 ∧ fmTypes.VendorModuleId = 4 ∧ 12 ≤ 20)
    ∧ sizeof fmTypes (ConnPacketModule 20) = 20 - 1
    ∧ sizeof fmTypes (ConnPacketModuleVendor 20) = 20 - 1
    ∧ sizeof fmTypes (ConnPacketData1 20) = 20
    ∧ sizeof fmTypes (ConnPacketDataClcData 20) = 20 :=
  have t := data_packets_fit_one_write fmTypes 20 rfl rfl rfl (by decide)
  ⟨⟨rfl, rfl, rfl, by decide⟩, t.1.2.1, t.2.1.2.1, t.2.2.1.1, t.2.2.2.1.1⟩

/-! ## Message type tags are unambiguous -/

/-- C16: apart from the four range markers, two enumerators of `MessageType` with the
same value are the same enumerator, so a tag byte stands for at most one named message
type. `MODULE_MESSAGES_START` has the value of `MODULE_CONFIG`, 50, and
`MODULE_MESSAGES_END` the value of `COMPONENT_SENSE`, 59. No enumerator other than
`INVALID` = 0 has a value below 16. -/
theorem message_type_tags_unambiguous :
    (∀ a b : MessageType,
        a ∉ [MessageType.MODULE_MESSAGES_START, .MODULE_MESSAGES_END, .RESERVED_BIT_START,
              .RESERVED_BIT_END] →
        b ∉ [MessageType.MODULE_MESSAGES_START, .MODULE_MESSAGES_END, .RESERVED_BIT_START,
              .RESERVED_BIT_END] →
        a.toU8 = b.toU8 → a = b)
    ∧ (∀ v : Nat,
        ((MessageType.all.filter (fun m =>
            m ∉ [MessageType.MODULE_MESSAGES_START, .MODULE_MESSAGES_END,
                  .RESERVED_BIT_START, .RESERVED_BIT_END])).filter
          (fun m => m.toU8 = v)).length ≤ 1)
    ∧ (MessageType.MODULE_MESSAGES_START.toU8 = MessageType.MODULE_CONFIG.toU8
      ∧ MessageType.MODULE_CONFIG.toU8 = 50
      ∧ MessageType.MODULE_MESSAGES_END.toU8 = MessageType.COMPONENT_SENSE.toU8
      ∧ MessageType.COMPONENT_SENSE.toU8 = 59)
    ∧ (MessageType.INVALID.toU8 = 0
      ∧ ∀ m : MessageType, m ≠ .INVALID → 16 ≤ m.toU8) := by
  have hnodup : ((MessageType.all.filter (fun m =>
      m ∉ [MessageType.MODULE_MESSAGES_START, .MODULE_MESSAGES_END,
            .RESERVED_BIT_START, .RESERVED_BIT_END])).map MessageType.toU8).Nodup := by
    decide
  have hmem : ∀ a : MessageType,
      a ∉ [MessageType.MODULE_MESSAGES_START, .MODULE_MESSAGES_END, .RESERVED_BIT_START,
            .RESERVED_BIT_END] →
      a ∈ MessageType.all.filter (fun m =>
        m ∉ [MessageType.MODULE_MESSAGES_START, .MODULE_MESSAGES_END,
              .RESERVED_BIT_START, .RESERVED_BIT_END]) := by
    intro a
    cases a <;> decide
  refine ⟨?_, ?_, ⟨rfl, rfl, rfl, rfl⟩, rfl, ?_⟩
  · intro a b ha hb hab
    exact List.inj_on_of_nodup_map hnodup (hmem a ha) (hmem b hb) hab
  · intro v
    have hn := List.Nodup.of_map _ hnodup
    generalize (MessageType.all.filter (fun m =>
      m ∉ [MessageType.MODULE_MESSAGES_START, .MODULE_MESSAGES_END,
            .RESERVED_BIT_START, .RESERVED_BIT_END])) = L at hn hnodup
    rcases hF : L.filter (fun m => m.toU8 = v) with _ | ⟨x, _ | ⟨y, r⟩⟩
    · simp [hF]
    · simp [hF]
    · exfalso
      have hx : x ∈ L.filter (fun m => m.toU8 = v) := by rw [hF]; simp
      have hy : y ∈ L.filter (fun m => m.toU8 = v) := by rw [hF]; simp
      have h1 := (List.mem_filter.mp hx).2
      have h2 := (List.mem_filter.mp hy).2
      simp only [decide_eq_true_eq] at h1 h2
      have hxy : x = y :=
        List.inj_on_of_nodup_map hnodup (List.mem_filter.mp hx).1 (List.mem_filter.mp hy).1
          (by rw [h1, h2])
      have hnF : (L.filter (fun m => m.toU8 = v)).Nodup := hn.filter _
      rw [hF] at hnF
      simp [hxy] at hnF
  · intro m hm
    cases m <;> first | exact absurd rfl hm | decide

/-! ## Vendor module layouts -/

/-- C17, as stated, fails for `ConnPacketModuleVendor`: at a write size of 20 bytes its
layout is not the layout of `ConnPacketModule` with the module identifier widened and
nothing else changed. The data area of `ConnPacketModule` has 20 - 5 - 4 = 11 bytes, the
data area of `ConnPacketModuleVendor` 20 - 5 - 7 = 8 bytes. -/
theorem vendor_module_data_area_differs :
    layout fmTypes (ConnPacketModuleVendor 20) ≠
        widenModuleId (layout fmTypes (ConnPacketModule 20))
    ∧ slotOf (widenModuleId (layout fmTypes (ConnPacketModule 20))) "data" =
        some ⟨"data", 8 * 11, 8, 11⟩
    ∧ slotOf (layout fmTypes (ConnPacketModuleVendor 20)) "data" = some ⟨"data", 8 * 11, 8, 8⟩
    ∧ sizeof fmTypes (ConnPacketModule 20) = sizeof fmTypes (ConnPacketModuleVendor 20) := by
  decide

/-- C17, amended: with 2-byte node identifiers, a 1-byte `ModuleId` and a 4-byte
`VendorModuleId`, the vendor variants of the component message header, the raw data light
packet and the raw data header are their non-vendor counterparts with the module
identifier widened from 1 to 4 bytes and nothing else changed; the same holds for
`ConnPacketModuleVendor` up to its data area, which starts 3 bytes later and, for a write
size of at least 12 bytes, is 3 bytes shorter than the data area of `ConnPacketModule`.
The three SIZEOF differences are 3, and the component header adds the 2-byte component
and the 2-byte register address, 4 bytes, to the module header in both variants
(12 = 8 + 4 and 15 = 11 + 4). -/
theorem vendor_layouts_widen_module_id (w : FmTypes) (MAX_DATA_SIZE_PER_WRITE : Nat)
    (hNode : w.NodeId = 2) (hModule : w.ModuleId = 1) (hVendor : w.VendorModuleId = 4) :
    (SIZEOF_CONN_PACKET_MODULE_VENDOR - SIZEOF_CONN_PACKET_MODULE = 3
      ∧ SIZEOF_COMPONENT_MESSAGE_HEADER_VENDOR - SIZEOF_COMPONENT_MESSAGE_HEADER = 3
      ∧ SIZEOF_RAW_DATA_LIGHT_VENDOR_PACKET - SIZEOF_RAW_DATA_LIGHT_PACKET = 3)
    ∧ (layout w ComponentMessageHeaderVendor = widenModuleId (layout w ComponentMessageHeader)
      ∧ layout w RawDataLightVendor = widenModuleId (layout w RawDataLight)
      ∧ layout w RawDataHeaderVendor = widenModuleId (layout w RawDataHeader))
    ∧ ((layout w (ConnPacketModuleVendor MAX_DATA_SIZE_PER_WRITE)).dropLast =
          (widenModuleId (layout w (ConnPacketModule MAX_DATA_SIZE_PER_WRITE))).dropLast
      ∧ (layout w (ConnPacketModule MAX_DATA_SIZE_PER_WRITE)).getLast? =
          some ⟨"data", 8 * 8, 8, MAX_DATA_SIZE_PER_WRITE - 5 - 4⟩
      ∧ (layout w (ConnPacketModuleVendor MAX_DATA_SIZE_PER_WRITE)).getLast? =
          some ⟨"data", 8 * (8 + 3), 8, MAX_DATA_SIZE_PER_WRITE - 5 - 7⟩
      ∧ (12 ≤ MAX_DATA_SIZE_PER_WRITE →
          MAX_DATA_SIZE_PER_WRITE - 5 - 7 + 3 = MAX_DATA_SIZE_PER_WRITE - 5 - 4
          ∧ sizeof w (ConnPacketModuleVendor MAX_DATA_SIZE_PER_WRITE) =
              sizeof w (ConnPacketModule MAX_DATA_SIZE_PER_WRITE)))
    ∧ (SIZEOF_COMPONENT_MESSAGE_HEADER = SIZEOF_CONN_PACKET_MODULE + 4
      ∧ SIZEOF_COMPONENT_MESSAGE_HEADER = 12 ∧ SIZEOF_CONN_PACKET_MODULE = 8
      ∧ SIZEOF_COMPONENT_MESSAGE_HEADER_VENDOR = SIZEOF_CONN_PACKET_MODULE_VENDOR + 4
      ∧ SIZEOF_COMPONENT_MESSAGE_HEADER_VENDOR = 15 ∧ SIZEOF_CONN_PACKET_MODULE_VENDOR = 11
      ∧ STATIC_ASSERT_SIZE w ComponentMessageHeader SIZEOF_COMPONENT_MESSAGE_HEADER
      ∧ STATIC_ASSERT_SIZE w ComponentMessageHeaderVendor SIZEOF_COMPONENT_MESSAGE_HEADER_VENDOR
      ∧ layout w ComponentMessageHeader = layout w ConnPacketModuleStart ++
          [⟨"component", 8 * 8, 16, 1⟩, ⟨"registerAddress", 8 * 10, 16, 1⟩]
      ∧ layout w ComponentMessageHeaderVendor =
          (layout w (ConnPacketModuleVendor MAX_DATA_SIZE_PER_WRITE)).dropLast ++
          [⟨"component", 8 * 11, 16, 1⟩, ⟨"registerAddress", 8 * 13, 16, 1⟩]) := by
  obtain ⟨n, ci, cs, ni, k, m, v⟩ := w
  simp only at hNode hModule hVendor
  subst hNode hModule hVendor
  refine ⟨⟨rfl, rfl, rfl⟩, ⟨?_, ?_, ?_⟩, ⟨?_, ?_, ?_, ?_⟩,
    rfl, rfl, rfl, rfl, rfl, rfl, ?_, ?_, ?_, ?_⟩
  · simp [widenModuleId, layout, ComponentMessageHeaderVendor, ComponentMessageHeader,
      ConnPacketHeader, Member.placeAll, Member.place, Cursor.close, CType.bytes]
  · simp [widenModuleId, layout, RawDataLightVendor, RawDataLight, ConnPacketHeader,
      Member.placeAll, Member.place, Cursor.close, CType.bytes]
  · simp [widenModuleId, layout, RawDataHeaderVendor, RawDataHeader, ConnPacketHeader,
      Member.placeAll, Member.place, Cursor.close, CType.bytes]
  · simp [widenModuleId, layout, ConnPacketModuleVendor, ConnPacketModule,
      CONN_PACKET_MODULE_ENTRIES, ConnPacketHeader, Member.placeAll, Member.place,
      Cursor.close, CType.bytes]
  · simp [layout, ConnPacketModule, CONN_PACKET_MODULE_ENTRIES, ConnPacketHeader,
      SIZEOF_CONN_PACKET_HEADER, Member.placeAll, Member.place, Cursor.close, CType.bytes]
  · simp [layout, ConnPacketModuleVendor, ConnPacketHeader, SIZEOF_CONN_PACKET_HEADER,
      Member.placeAll, Member.place, Cursor.close, CType.bytes]
  · intro hMax
    refine ⟨by omega, ?_⟩
    simp [sizeof, ConnPacketModuleVendor, ConnPacketModule, CONN_PACKET_MODULE_ENTRIES,
      ConnPacketHeader, SIZEOF_CONN_PACKET_HEADER, Member.placeAll, Member.place,
      Cursor.close, CType.bytes]
    omega
  · simp [STATIC_ASSERT_SIZE, SIZEOF_COMPONENT_MESSAGE_HEADER, sizeof, ComponentMessageHeader,
      ConnPacketHeader, Member.placeAll, Member.place, Cursor.close, CType.bytes]
  · simp [STATIC_ASSERT_SIZE, SIZEOF_COMPONENT_MESSAGE_HEADER_VENDOR, sizeof,
      ComponentMessageHeaderVendor, ConnPacketHeader, Member.placeAll, Member.place,
      Cursor.close, CType.bytes]
  · simp [layout, ComponentMessageHeader, ConnPacketModuleStart, CONN_PACKET_MODULE_ENTRIES,
      ConnPacketHeader, Member.placeAll, Member.place, Cursor.close, CType.bytes]
  · simp [layout, ComponentMessageHeaderVendor, ConnPacketModuleVendor, ConnPacketHeader,
      Member.placeAll, Member.place, Cursor.close, CType.bytes]

/-- C17 amended, at the widths of `fmTypes` and a write size of 20 bytes. -/
theorem vendor_layouts_widen_module_id_witness :
    (fmTypes.NodeId = 2 ∧ fmTypes.ModuleId = 1 ∧ fmTypes.VendorModuleId = 4)
    ∧ layout fmTypes ComponentMessageHeaderVendor =
        widenModuleId (layout fmTypes ComponentMessageHeader)
    ∧ (layout fmTypes (ConnPacketModuleVendor 20)).dropLast =
        (widenModuleId (layout fmTypes (ConnPacketModule 20))).dropLast :=
  have t := vendor_layouts_widen_module_id fmTypes 20 rfl rfl rfl
  ⟨⟨rfl, rfl, rfl⟩, t.2.1.1, t.2.2.1.1⟩

/-! ## Encoding lemmas -/

theorem toBytes_length (n len : Nat) : (toBytes n len).length = len := by
  induction len generalizing n with
  | zero => rfl
  | succ k ih => simp [toBytes, ih]

theorem ofBytes_toBytes (n len : Nat) : ofBytes (toBytes n len) = n % 256 ^ len := by
  induction len generalizing n with
  | zero => simp [toBytes, ofBytes, Nat.mod_one]
  | succ k ih =>
    simp only [toBytes, ofBytes, ih, Nat.mod_mod]
    rw [pow_succ, Nat.mul_comm (256 ^ k) 256, Nat.mod_mul]

theorem encodeElems_dvd (width offset : Nat) (vs : List Nat) :
    ∃ y, encodeElems width offset vs = 2 ^ offset * y := by
  induction vs generalizing offset with
  | nil => exact ⟨0, by simp [encodeElems]⟩
  | cons v r ih =>
    obtain ⟨y, hy⟩ := ih (offset + width)
    refine ⟨storeBits width v + 2 ^ width * y, ?_⟩
    simp only [encodeElems, hy, pow_add]
    ring

theorem encodeElems_lt (width offset low : Nat) (vs : List Nat) (hlow : low < 2 ^ offset)
    (hfit : ∀ v ∈ vs, v < 2 ^ width) :
    low + encodeElems width offset vs < 2 ^ (offset + width * vs.length) := by
  induction vs generalizing offset low with
  | nil => simpa [encodeElems] using hlow
  | cons v r ih =>
    have hv : v < 2 ^ width := hfit v (by simp)
    have hs : storeBits width v = v := Nat.mod_eq_of_lt hv
    have hlow' : low + v * 2 ^ offset < 2 ^ (offset + width) := by
      rw [pow_add]
      have : (v + 1) * 2 ^ offset ≤ 2 ^ width * 2 ^ offset :=
        Nat.mul_le_mul_right _ hv
      nlinarith
    have := ih (offset + width) (low + v * 2 ^ offset) hlow'
      (fun x hx => hfit x (by simp [hx]))
    simp only [encodeElems, hs, List.length_cons]
    have e : offset + width * (r.length + 1) = offset + width + width * r.length := by ring
    rw [e]
    omega

theorem decodeElems_encodeElems (width offset low high : Nat) (vs : List Nat)
    (hlow : low < 2 ^ offset) (hfit : ∀ v ∈ vs, v < 2 ^ width) :
    decodeElems width offset
      (low + encodeElems width offset vs + 2 ^ (offset + width * vs.length) * high)
      vs.length = vs := by
  induction vs generalizing offset low with
  | nil => rfl
  | cons v r ih =>
    have hv : v < 2 ^ width := hfit v (by simp)
    have hs : storeBits width v = v := Nat.mod_eq_of_lt hv
    have hlow' : low + v * 2 ^ offset < 2 ^ (offset + width) := by
      rw [pow_add]
      have : (v + 1) * 2 ^ offset ≤ 2 ^ width * 2 ^ offset :=
        Nat.mul_le_mul_right _ hv
      nlinarith
    obtain ⟨y, hy⟩ := encodeElems_dvd width (offset + width) r
    have e : offset + width * (r.length + 1) = offset + width + width * r.length := by ring
    simp only [List.length_cons, decodeElems, encodeElems, hs, e]
    congr 1
    · have hn : low + (v * 2 ^ offset + encodeElems width (offset + width) r)
          + 2 ^ (offset + width + width * r.length) * high
          = low + 2 ^ offset * (v + 2 ^ width * (y + 2 ^ (width * r.length) * high)) := by
        rw [hy]
        simp only [pow_add]
        ring
      rw [hn, Nat.add_mul_div_left _ _ (Nat.two_pow_pos offset), Nat.div_eq_of_lt hlow,
        Nat.zero_add, Nat.add_mul_mod_self_left, Nat.mod_eq_of_lt hv]
    · have := ih (offset + width) (low + v * 2 ^ offset) hlow'
        (fun x hx => hfit x (by simp [hx]))
      have hN : low + (v * 2 ^ offset + encodeElems width (offset + width) r)
          + 2 ^ (offset + width + width * r.length) * high
          = low + v * 2 ^ offset + encodeElems width (offset + width) r
            + 2 ^ (offset + width + width * r.length) * high := by ring
      rw [hN]
      exact this

theorem encodeSlots_lt (o low : Nat) (l : List Slot) (p : Payload) (hlow : low < 2 ^ o)
    (hc : contiguousFrom o l = true) (hfit : Fits l p) :
    low + encodeSlots l p < 2 ^ (o + slotBits l) := by
  induction l generalizing o low p with
  | nil =>
    cases p with
    | nil => simpa [encodeSlots, slotBits] using hlow
    | cons _ _ => simp [Fits] at hfit
  | cons s l ih =>
    cases p with
    | nil => simp [Fits] at hfit
    | cons vs p =>
      simp only [contiguousFrom, Bool.and_eq_true, beq_iff_eq] at hc
      obtain ⟨ho, hc⟩ := hc
      obtain ⟨hlen, hv, hfit⟩ := hfit
      have h1 := encodeElems_lt s.width o low vs hlow hv
      rw [hlen] at h1
      have h2 := ih (o + s.width * s.count) (low + encodeElems s.width o vs) p h1 hc hfit
      simp only [encodeSlots, slotBits, ho]
      have e : o + (s.width * s.count + slotBits l) = o + s.width * s.count + slotBits l := by
        ring
      rw [e]
      omega

theorem encodeSlots_dvd (o : Nat) (l : List Slot) (p : Payload)
    (hc : contiguousFrom o l = true) : ∃ y, encodeSlots l p = 2 ^ o * y := by
  induction l generalizing o p with
  | nil => exact ⟨0, by cases p <;> simp [encodeSlots]⟩
  | cons s l ih =>
    cases p with
    | nil => exact ⟨0, by simp [encodeSlots]⟩
    | cons vs p =>
      simp only [contiguousFrom, Bool.and_eq_true, beq_iff_eq] at hc
      obtain ⟨ho, hc⟩ := hc
      obtain ⟨y1, h1⟩ := encodeElems_dvd s.width o vs
      obtain ⟨y2, h2⟩ := ih (o + s.width * s.count) p hc
      refine ⟨y1 + 2 ^ (s.width * s.count) * y2, ?_⟩
      simp only [encodeSlots, ho, h1, h2, pow_add]
      ring

theorem decodeSlots_encodeSlots (o low : Nat) (l : List Slot) (p : Payload)
    (hlow : low < 2 ^ o) (hc : contiguousFrom o l = true) (hfit : Fits l p) :
    decodeSlots (low + encodeSlots l p) l = p := by
  induction l generalizing o low p with
  | nil =>
    cases p with
    | nil => rfl
    | cons _ _ => simp [Fits] at hfit
  | cons s l ih =>
    cases p with
    | nil => simp [Fits] at hfit
    | cons vs p =>
      simp only [contiguousFrom, Bool.and_eq_true, beq_iff_eq] at hc
      obtain ⟨ho, hc⟩ := hc
      obtain ⟨hlen, hv, hfit⟩ := hfit
      obtain ⟨y, hy⟩ := encodeSlots_dvd (o + s.width * s.count) l p hc
      have h1 := encodeElems_lt s.width o low vs hlow hv
      rw [hlen] at h1
      simp only [decodeSlots, List.map_cons, encodeSlots]
      congr 1
      · have := decodeElems_encodeElems s.width o low y vs hlow hv
        rw [hlen] at this
        rw [ho, hy, ← Nat.add_assoc]
        exact this
      · have := ih (o + s.width * s.count) (low + encodeElems s.width o vs) p h1 hc hfit
        rw [ho, ← Nat.add_assoc]
        exact this

theorem slotBits_append (a b : List Slot) : slotBits (a ++ b) = slotBits a + slotBits b := by
  induction a with
  | nil => simp [slotBits]
  | cons s a ih => simp [slotBits, ih, Nat.add_assoc]

mutual
theorem place_slotBits (w : FmTypes) (pre : String) (c : Cursor) :
    ∀ m : Member, slotBits (Member.place w pre c m).1 = Member.declaredBits w m
  | .field n t => by simp [Member.place, Member.declaredBits, slotBits]
  | .array n t len => by simp [Member.place, Member.declaredBits, slotBits]
  | .bits n t k => by
    simp only [Member.place]
    split <;> simp [Member.declaredBits, slotBits]
  | .struct n ms => by
    simp [Member.place, Member.declaredBits, placeAll_slotBits w (pre ++ n ++ ".") c.close ms]
theorem placeAll_slotBits (w : FmTypes) (pre : String) (c : Cursor) :
    ∀ ms : List Member, slotBits (Member.placeAll w pre c ms).1 = Member.declaredBitsAll w ms
  | [] => by simp [Member.placeAll, Member.declaredBitsAll, slotBits]
  | m :: ms => by
    simp [Member.placeAll, Member.declaredBitsAll, slotBits_append, place_slotBits w pre c m,
      placeAll_slotBits w pre (Member.place w pre c m).2 ms]
end

/-- The slots of a layout take as many bits as the struct declares. -/
theorem slotBits_layout (w : FmTypes) (S : Struct) :
    slotBits (layout w S) = declaredBits w S :=
  placeAll_slotBits w "" ⟨0, 0, 0⟩ S

theorem writeElems_eq (width : Nat) (vs : List Nat) (n len : Nat) :
    writeElems width vs (n, len) = (n + encodeElems width len vs, len + width * vs.length) := by
  induction vs generalizing n len with
  | nil => simp [writeElems, encodeElems]
  | cons v r ih =>
    simp only [writeElems, encodeElems, ih, List.length_cons]
    congr 1
    · ring
    · ring

theorem writeFields_eq (l : List Slot) (p : Payload) (n o : Nat)
    (hc : contiguousFrom o l = true) (hfit : Fits l p) :
    writeFields (l.map (fun s => (s.width, s.count))) p (n, o) =
      (n + encodeSlots l p, o + slotBits l) := by
  induction l generalizing p n o with
  | nil =>
    cases p with
    | nil => simp [writeFields, encodeSlots, slotBits]
    | cons _ _ => simp [Fits] at hfit
  | cons s l ih =>
    cases p with
    | nil => simp [Fits] at hfit
    | cons vs p =>
      simp only [contiguousFrom, Bool.and_eq_true, beq_iff_eq] at hc
      obtain ⟨ho, hc⟩ := hc
      obtain ⟨hlen, _, hfit⟩ := hfit
      simp only [List.map_cons, writeFields, writeElems_eq, hlen]
      rw [ih p _ _ hc hfit]
      simp only [encodeSlots, slotBits, ho]
      congr 1
      · ring
      · ring

mutual
theorem place_fields (w : FmTypes) (pre : String) (c : Cursor) :
    ∀ m : Member, (Member.place w pre c m).1.map (fun s => (s.width, s.count)) =
      Member.fields w m
  | .field n t => by simp [Member.place, Member.fields]
  | .array n t len => by simp [Member.place, Member.fields]
  | .bits n t k => by
    simp only [Member.place]
    split <;> simp [Member.fields]
  | .struct n ms => by
    simp [Member.place, Member.fields, placeAll_fields w (pre ++ n ++ ".") c.close ms]
theorem placeAll_fields (w : FmTypes) (pre : String) (c : Cursor) :
    ∀ ms : List Member, (Member.placeAll w pre c ms).1.map (fun s => (s.width, s.count)) =
      Member.fieldsAll w ms
  | [] => by simp [Member.placeAll, Member.fieldsAll]
  | m :: ms => by
    simp [Member.placeAll, Member.fieldsAll, place_fields w pre c m,
      placeAll_fields w pre (Member.place w pre c m).2 ms]
end

/-- The slots of a layout are the declared fields, in declaration order. -/
theorem fields_eq_layout (w : FmTypes) (S : Struct) :
    fields w S = (layout w S).map (fun s => (s.width, s.count)) :=
  (placeAll_fields w "" ⟨0, 0, 0⟩ S).symm

/-- For a struct without padding the stream written in declaration order is the stream
that has every member at its layout offset, and it is `sizeof` bytes long. -/
theorem encodeRecord_eq (w : FmTypes) (S : Struct) (p : Payload)
    (hpad : NoPadding w S) (hfit : Fits (layout w S) p) :
    encodeRecord w S p = toBytes (encodeSlots (layout w S) p) (sizeof w S) := by
  obtain ⟨hc, hsize⟩ := hpad
  have h := writeFields_eq (layout w S) p 0 0 hc hfit
  simp only [encodeRecord, fields_eq_layout, h, Nat.zero_add, slotBits_layout, ← hsize]
  congr 1
  omega

theorem encodeSlots_lt_size (w : FmTypes) (S : Struct) (p : Payload)
    (hpad : NoPadding w S) (hfit : Fits (layout w S) p) :
    encodeSlots (layout w S) p < 256 ^ sizeof w S := by
  obtain ⟨hc, hsize⟩ := hpad
  have h := encodeSlots_lt 0 0 (layout w S) p (by norm_num) hc hfit
  rw [Nat.zero_add, Nat.zero_add, slotBits_layout, ← hsize, pow_mul] at h
  simpa using h

theorem decodeSlots_encodeSlots_layout (w : FmTypes) (S : Struct) (p : Payload)
    (hpad : NoPadding w S) (hfit : Fits (layout w S) p) :
    decodeSlots (encodeSlots (layout w S) p) (layout w S) = p := by
  have hback := decodeSlots_encodeSlots 0 0 (layout w S) p (by norm_num) hpad.1 hfit
  rwa [Nat.zero_add] at hback

/-- Round trip for one record of a struct that is laid out without padding: a payload
whose fields fit their widths is written in `sizeof` bytes, and reading the bytes through
the packed layout gives the payload back. -/
theorem decodeRecord_encodeRecord (w : FmTypes) (S : Struct) (p : Payload)
    (hpad : NoPadding w S) (hfit : Fits (layout w S) p) :
    decodeRecord w S (encodeRecord w S p) = some p
    ∧ (encodeRecord w S p).length = sizeof w S := by
  rw [encodeRecord_eq w S p hpad hfit]
  have hlen : (toBytes (encodeSlots (layout w S) p) (sizeof w S)).length = sizeof w S :=
    toBytes_length _ _
  refine ⟨?_, hlen⟩
  unfold decodeRecord
  rw [if_pos hlen, ofBytes_toBytes, Nat.mod_eq_of_lt (encodeSlots_lt_size w S p hpad hfit),
    decodeSlots_encodeSlots_layout w S p hpad hfit]

theorem toBytes_getElem? (n len i : Nat) :
    (toBytes n len)[i]? = if i < len then some (n / 256 ^ i % 256) else none := by
  induction len generalizing n i with
  | zero => simp [toBytes]
  | succ k ih =>
    cases i with
    | zero => simp [toBytes]
    | succ j =>
      simp only [toBytes, List.getElem?_cons_succ, ih, Nat.add_lt_add_iff_right]
      split
      · rw [Nat.div_div_eq_div_mul, pow_succ, Nat.mul_comm]
      · rfl

/-- With the widths of `fmTypes`, a write size of at least 12 bytes and a 7-byte asset
service data payload, every size assertion of the header holds and the asserted struct is
laid out without padding. -/
theorem sizeAssertions_hold (MAX_DATA_SIZE_PER_WRITE : Nat) (hMax : 12 ≤ MAX_DATA_SIZE_PER_WRITE) :
    ∀ a ∈ sizeAssertions MAX_DATA_SIZE_PER_WRITE 7,
      NoPadding fmTypes a.1 ∧ sizeof fmTypes a.1 = a.2 := by
  intro a ha
  simp only [sizeAssertions, List.mem_cons, List.mem_singleton, List.not_mem_nil,
    or_false] at ha
  rcases ha with h | h | h | h | h | h | h | h | h | h | h | h | h | h | h | h | h | h | h
    | h | h | h | h | h | h | h | h | h | h | h | h | h | h | h | h | h | h | h | h | h
    | h | h | h | h | h | h | h | h
  all_goals
    subst h
    simp [NoPadding, contiguousFrom, declaredBits, Member.declaredBitsAll,
      Member.declaredBits, layout, sizeof, fmTypes, Member.placeAll, Member.place,
      Cursor.close, CType.bytes,
      ConnPacketHeader, ConnPacketSplitHeader,
      ConnPacketPayloadClusterWelcome, ConnPacketClusterWelcome,
      ConnPacketPayloadClusterAck1, ConnPacketClusterAck1, ConnPacketPayloadClusterAck2,
      ConnPacketClusterAck2, ConnPacketPayloadClusterInfoUpdate,
      ConnPacketClusterInfoUpdate, ConnPacketReconnect, ConnPacketEncryptCustomStart,
      ConnPacketEncryptCustomANonce, ConnPacketEncryptCustomSNonce,
      ConnPacketEncryptCustomDone, ConnPacketModule, CONN_PACKET_MODULE_ENTRIES,
      ConnPacketModuleStart, ConnPacketModuleVendor, ComponentMessageHeader,
      ConnPacketComponentMessage, ComponentMessageHeaderVendor,
      ConnPacketComponentMessageVendor, RawDataHeader, RawDataHeaderVendor, RawDataLight,
      RawDataLightVendor, RawDataStartPayload, RawDataErrorPayload, RawDataChunkPayload,
      RawDataReportPayload, CapabilityEntry, CapabilityHeader, CapabilityRequestedMessage,
      CapabilityEntryMessage, CapabilityEndMessage, connPacketUpdateTimestamp,
      TimeSyncHeader, TimeSyncInitial, TimeSyncInterNetwork, TimeSyncInitialReply,
      TimeSyncCorrection, TimeSyncCorrectionReply, EnrolledNodesHeader,
      EnrolledNodesMessage, ConnPacketPayloadData1, ConnPacketData1,
      ConnPacketPayloadClcData, ConnPacketDataClcData, ConnPacketUpdateConnectionInterval,
      PeriodicAssetMessageEntry, StandstillAssetMessageEntry,
      SIZEOF_CONN_PACKET_HEADER, SIZEOF_CONN_PACKET_SPLIT_HEADER,
      SIZEOF_CONN_PACKET_PAYLOAD_CLUSTER_WELCOME_WITH_NETWORK_ID,
      SIZEOF_CONN_PACKET_CLUSTER_WELCOME_WITH_NETWORK_ID,
      SIZEOF_CONN_PACKET_PAYLOAD_CLUSTER_ACK_1, SIZEOF_CONN_PACKET_CLUSTER_ACK_1,
      SIZEOF_CONN_PACKET_PAYLOAD_CLUSTER_ACK_2, SIZEOF_CONN_PACKET_CLUSTER_ACK_2,
      SIZEOF_CONN_PACKET_PAYLOAD_CLUSTER_INFO_UPDATE, SIZEOF_CONN_PACKET_CLUSTER_INFO_UPDATE,
      SIZEOF_CONN_PACKET_RECONNECT, SIZEOF_CONN_PACKET_ENCRYPT_CUSTOM_START,
      SIZEOF_CONN_PACKET_ENCRYPT_CUSTOM_ANONCE, SIZEOF_CONN_PACKET_ENCRYPT_CUSTOM_SNONCE,
      SIZEOF_CONN_PACKET_ENCRYPT_CUSTOM_DONE, SIZEOF_CONN_PACKET_MODULE,
      SIZEOF_CONN_PACKET_MODULE_VENDOR, SIZEOF_COMPONENT_MESSAGE_HEADER,
      SIZEOF_CONN_PACKET_COMPONENT_MESSAGE, SIZEOF_COMPONENT_MESSAGE_HEADER_VENDOR,
      SIZEOF_CONN_PACKET_COMPONENT_MESSAGE_VENDOR, SIZEOF_RAW_DATA_LIGHT_PACKET,
      SIZEOF_RAW_DATA_LIGHT_VENDOR_PACKET, SIZEOF_RAW_DATA_START_PAYLOAD,
      SIZEOF_RAW_DATA_CHUNK_PAYLOAD, SIZEOF_CONN_PACKET_UPDATE_TIMESTAMP,
      SIZEOF_CONN_PACKET_PAYLOAD_DATA_1, SIZEOF_CONN_PACKET_DATA_1,
      SIZEOF_CONN_PACKET_PAYLOAD_CLC_DATA, SIZEOF_CONN_PACKET_CLC_DATA,
      SIZEOF_CONN_PACKET_UPDATE_CONNECTION_INTERVAL, SIZEOF_TRACKED_ASSET_MESSAGE_ENTRY,
      SIZEOF_STANDSTILL_ASSET_MESSAGE_ENTRY]
    try omega

/-! ## Packet decoder lemmas -/

theorem fieldValue_decodeSlots (n : Nat) (l : List Slot) (name : String) (s : Slot)
    (hs : slotOf l name = some s) (hc : 0 < s.count) :
    fieldValue l (decodeSlots n l) name = some (n / 2 ^ s.offset % 2 ^ s.width) := by
  induction l with
  | nil => simp [slotOf] at hs
  | cons t l ih =>
    simp only [slotOf, List.find?_cons] at hs
    simp only [decodeSlots, List.map_cons, fieldValue]
    by_cases ht : t.name = name
    · simp only [ht, beq_self_eq_true, Option.some.injEq] at hs
      subst hs
      obtain ⟨c, hc'⟩ := Nat.exists_eq_succ_of_ne_zero (Nat.pos_iff_ne_zero.mp hc)
      simp [ht, hc', decodeElems]
    · have hb : (t.name == name) = false := by simpa using ht
      simp only [hb] at hs
      simp only [ht, if_false]
      exact ih hs

/-- The byte of a written record that holds a 1-byte member is the value the payload
gives to that member. -/
theorem byte_of_field (w : FmTypes) (S : Struct) (p : Payload) (name : String) (off v : Nat)
    (hpad : NoPadding w S) (hfit : Fits (layout w S) p)
    (hs : slotOf (layout w S) name = some ⟨name, 8 * off, 8, 1⟩)
    (hv : fieldValue (layout w S) p name = some v) :
    encodeSlots (layout w S) p / 256 ^ off % 256 = v := by
  have h := fieldValue_decodeSlots (encodeSlots (layout w S) p) (layout w S) name _ hs
    (by norm_num)
  rw [decodeSlots_encodeSlots_layout w S p hpad hfit, hv] at h
  simp only [Option.some.injEq] at h
  rw [h, pow_mul]
  norm_num

theorem encode_length (w : FmTypes) (k : Kind) (p : Payload) (span : List Nat)
    (hpad : NoPadding w k.fixed) (hsize : sizeof w k.fixed = k.size)
    (hfit : Fits (layout w k.fixed) p) :
    (encode w k p span).length = k.size + span.length := by
  simp [encode, encodeRecord_eq w k.fixed p hpad hfit, toBytes_length, hsize]

theorem encode_getElem? (w : FmTypes) (k : Kind) (p : Payload) (span : List Nat) (i : Nat)
    (hpad : NoPadding w k.fixed) (hsize : sizeof w k.fixed = k.size)
    (hfit : Fits (layout w k.fixed) p) (hi : i < k.size) :
    (encode w k p span)[i]? = some (encodeSlots (layout w k.fixed) p / 256 ^ i % 256) := by
  have hlen : i < (toBytes (encodeSlots (layout w k.fixed) p) k.size).length := by
    rw [toBytes_length]; exact hi
  simp only [encode, encodeRecord_eq w k.fixed p hpad hfit, hsize]
  rw [List.getElem?_append_left hlen, toBytes_getElem?, if_pos hi]

/-- Reading the bytes of an encoded message as a message of its own kind gives the
payload and the trailing span back. -/
theorem decodeAs_encode (w : FmTypes) (k : Kind) (p : Payload) (span : List Nat)
    (hpad : NoPadding w k.fixed) (hsize : sizeof w k.fixed = k.size)
    (hfit : Fits (layout w k.fixed) p) (hspan : k.allows span.length = true) :
    decodeAs w k (encode w k p span) = .ok ⟨k, p, span⟩ := by
  have hlen := encode_length w k p span hpad hsize hfit
  have hl : (toBytes (encodeSlots (layout w k.fixed) p) k.size).length = k.size :=
    toBytes_length _ _
  have htake : (encode w k p span).take k.size =
      toBytes (encodeSlots (layout w k.fixed) p) k.size := by
    simp only [encode, encodeRecord_eq w k.fixed p hpad hfit, hsize]
    rw [List.take_append_of_le_length (by rw [hl]), List.take_of_length_le (by rw [hl])]
  have hdrop : (encode w k p span).drop k.size = span := by
    simp only [encode, encodeRecord_eq w k.fixed p hpad hfit, hsize]
    rw [List.drop_append_of_le_length (by rw [hl]), List.drop_of_length_le (by rw [hl]),
      List.nil_append]
  have hlt := encodeSlots_lt_size w k.fixed p hpad hfit
  rw [hsize] at hlt
  unfold decodeAs
  rw [hlen, htake, hdrop, ofBytes_toBytes, Nat.mod_eq_of_lt hlt,
    decodeSlots_encodeSlots_layout w k.fixed p hpad hfit]
  simp [hspan]

set_option maxHeartbeats 4000000 in
/-- With the widths of `fmTypes` and a write size of at least 12 bytes every message kind
is well formed: its fixed record is laid out without padding and has the documented size,
its message type member is the first byte, and its second discriminator, if it has one,
is one byte inside the fixed record. -/
theorem kinds_ok (MAX_DATA_SIZE_PER_WRITE : Nat) (hMax : 12 ≤ MAX_DATA_SIZE_PER_WRITE) :
    ∀ k ∈ kinds MAX_DATA_SIZE_PER_WRITE,
      NoPadding fmTypes k.fixed ∧ sizeof fmTypes k.fixed = k.size ∧ 0 < k.size
      ∧ slotOf (layout fmTypes k.fixed) k.tagField = some ⟨k.tagField, 8 * 0, 8, 1⟩
      ∧ ∀ d ∈ k.sub, ∃ off, off < k.size
          ∧ slotOf (layout fmTypes k.fixed) d.1 = some ⟨d.1, 8 * off, 8, 1⟩
          ∧ byteSpan (layout fmTypes k.fixed) d.1 = some (off, 1) := by
  intro k hk
  simp only [kinds, List.mem_cons, List.mem_singleton, List.not_mem_nil, or_false] at hk
  rcases hk with h | h | h | h | h | h | h | h | h | h | h | h | h | h | h | h | h | h | h
    | h | h | h | h | h | h | h | h | h | h | h | h | h | h | h | h | h | h | h
  all_goals
    subst h
    refine ⟨?_, ?_, ?_, ?_, ?_⟩
  all_goals
    first
    | (simp [NoPadding, contiguousFrom, declaredBits, Member.declaredBitsAll,
        Member.declaredBits, layout, sizeof, slotOf, byteSpan, fmTypes, Member.placeAll,
        Member.place, Cursor.close, CType.bytes,
        ConnPacketHeader, ConnPacketSplitHeader,
        ConnPacketPayloadClusterWelcome, ConnPacketClusterWelcome,
        ConnPacketPayloadClusterAck1, ConnPacketClusterAck1, ConnPacketPayloadClusterAck2,
        ConnPacketClusterAck2, ConnPacketPayloadClusterInfoUpdate,
        ConnPacketClusterInfoUpdate, ConnPacketReconnect, ConnPacketEncryptCustomStart,
        ConnPacketEncryptCustomANonce, ConnPacketEncryptCustomSNonce,
        ConnPacketEncryptCustomDone, CONN_PACKET_MODULE_ENTRIES,
        ConnPacketModuleStart, ComponentMessageHeader, RawDataHeader, RawDataLight,
        RawDataStartPayload, RawDataErrorPayload, RawDataChunkPayload,
        RawDataReportPayload, CapabilityEntry, CapabilityHeader, CapabilityRequestedMessage,
        CapabilityEntryMessage, CapabilityEndMessage, connPacketUpdateTimestamp,
        TimeSyncHeader, TimeSyncInitial, TimeSyncInterNetwork, TimeSyncInitialReply,
        TimeSyncCorrection, TimeSyncCorrectionReply, ConnPacketPayloadData1, ConnPacketData1,
        ConnPacketPayloadClcData, ConnPacketDataClcData, ConnPacketUpdateConnectionInterval,
        SIZEOF_CONN_PACKET_HEADER, SIZEOF_CONN_PACKET_SPLIT_HEADER,
        SIZEOF_CONN_PACKET_PAYLOAD_CLUSTER_WELCOME, SIZEOF_CONN_PACKET_CLUSTER_WELCOME,
        SIZEOF_CONN_PACKET_PAYLOAD_CLUSTER_WELCOME_WITH_NETWORK_ID,
        SIZEOF_CONN_PACKET_CLUSTER_WELCOME_WITH_NETWORK_ID,
        SIZEOF_CONN_PACKET_PAYLOAD_CLUSTER_ACK_1, SIZEOF_CONN_PACKET_CLUSTER_ACK_1,
        SIZEOF_CONN_PACKET_PAYLOAD_CLUSTER_ACK_2, SIZEOF_CONN_PACKET_CLUSTER_ACK_2,
        SIZEOF_CONN_PACKET_PAYLOAD_CLUSTER_INFO_UPDATE, SIZEOF_CONN_PACKET_CLUSTER_INFO_UPDATE,
        SIZEOF_CONN_PACKET_RECONNECT, SIZEOF_CONN_PACKET_ENCRYPT_CUSTOM_START,
        SIZEOF_CONN_PACKET_ENCRYPT_CUSTOM_ANONCE, SIZEOF_CONN_PACKET_ENCRYPT_CUSTOM_SNONCE,
        SIZEOF_CONN_PACKET_ENCRYPT_CUSTOM_DONE, SIZEOF_CONN_PACKET_MODULE,
        SIZEOF_COMPONENT_MESSAGE_HEADER, SIZEOF_RAW_DATA_LIGHT_PACKET,
        SIZEOF_RAW_DATA_START_PAYLOAD, SIZEOF_RAW_DATA_CHUNK_PAYLOAD,
        SIZEOF_CONN_PACKET_UPDATE_TIMESTAMP, SIZEOF_CONN_PACKET_PAYLOAD_DATA_1,
        SIZEOF_CONN_PACKET_DATA_1, SIZEOF_CONN_PACKET_PAYLOAD_CLC_DATA,
        SIZEOF_CONN_PACKET_CLC_DATA, SIZEOF_CONN_PACKET_UPDATE_CONNECTION_INTERVAL,
        CapabilityActionType.toU8, TimeSyncType.toU8, RawDataActionType.toU8]; done)
    | (simp [NoPadding, contiguousFrom, declaredBits, Member.declaredBitsAll,
        Member.declaredBits, layout, sizeof, fmTypes, Member.placeAll,
        Member.place, Cursor.close, CType.bytes, ConnPacketHeader, ConnPacketPayloadData1,
        ConnPacketData1, ConnPacketPayloadClcData, ConnPacketDataClcData,
        SIZEOF_CONN_PACKET_HEADER, SIZEOF_CONN_PACKET_PAYLOAD_DATA_1,
        SIZEOF_CONN_PACKET_DATA_1, SIZEOF_CONN_PACKET_PAYLOAD_CLC_DATA,
        SIZEOF_CONN_PACKET_CLC_DATA]; omega)

/-- The bytes of an encoded message carry the second discriminator of its kind where the
decoder looks for it. -/
theorem subMatches_encode (w : FmTypes) (k : Kind) (p : Payload) (span : List Nat)
    (hpad : NoPadding w k.fixed) (hsize : sizeof w k.fixed = k.size)
    (hfit : Fits (layout w k.fixed) p) (htag : Tagged w k p)
    (hsub : ∀ d ∈ k.sub, ∃ off, off < k.size
      ∧ slotOf (layout w k.fixed) d.1 = some ⟨d.1, 8 * off, 8, 1⟩
      ∧ byteSpan (layout w k.fixed) d.1 = some (off, 1)) :
    subMatches w k (encode w k p span) = some true := by
  unfold subMatches
  cases hk : k.sub with
  | none => rfl
  | some d =>
    obtain ⟨off, hoff, hs, hb⟩ := hsub d (by simp [hk])
    have hv := htag.2 d (by simp [hk])
    simp only [hb, encode_getElem? w k p span off hpad hsize hfit hoff,
      byte_of_field w k.fixed p d.1 off d.2 hpad hfit hs hv, Option.map_some', beq_self_eq_true]

/-- The first byte of an encoded message is the tag of its kind. -/
theorem encode_head (w : FmTypes) (k : Kind) (p : Payload) (span : List Nat)
    (hpad : NoPadding w k.fixed) (hsize : sizeof w k.fixed = k.size) (hpos : 0 < k.size)
    (hfit : Fits (layout w k.fixed) p) (htag : Tagged w k p)
    (hs : slotOf (layout w k.fixed) k.tagField = some ⟨k.tagField, 8 * 0, 8, 1⟩) :
    ∃ rest, encode w k p span = k.tag.toU8 :: rest := by
  have h0 := encode_getElem? w k p span 0 hpad hsize hfit hpos
  rw [byte_of_field w k.fixed p k.tagField 0 k.tag.toU8 hpad hfit hs htag.1] at h0
  cases hb : encode w k p span with
  | nil => simp [hb] at h0
  | cons b rest =>
    simp only [hb, List.getElem?_cons_zero, Option.some.injEq] at h0
    exact ⟨rest, by rw [h0]⟩

set_option maxHeartbeats 4000000 in
/-- The decoder selects a message kind from its own tag, second discriminator and
length. -/
theorem selectKind_ok (MAX_DATA_SIZE_PER_WRITE : Nat) :
    ∀ k ∈ kinds MAX_DATA_SIZE_PER_WRITE, ∀ bytes : List Nat,
      subMatches fmTypes k bytes = some true → k.accepts bytes.length = true →
      selectKind fmTypes MAX_DATA_SIZE_PER_WRITE k.tag.toU8 bytes = .ok k := by
  intro k hk bytes hsub hacc
  simp only [kinds, List.mem_cons, List.mem_singleton, List.not_mem_nil, or_false] at hk
  rcases hk with h | h | h | h | h | h | h | h | h | h | h | h | h | h | h | h | h | h | h
    | h | h | h | h | h | h | h | h | h | h | h | h | h | h | h | h | h | h | h
  all_goals
    subst h
    simp [subMatches, byteSpan, slotOf, layout, fmTypes, Member.placeAll, Member.place,
      Cursor.close, CType.bytes, ConnPacketHeader, CapabilityEntry, CapabilityHeader,
      CapabilityRequestedMessage, CapabilityEntryMessage, CapabilityEndMessage,
      TimeSyncHeader, TimeSyncInitial, TimeSyncInterNetwork, TimeSyncInitialReply,
      TimeSyncCorrection, TimeSyncCorrectionReply, RawDataHeader, RawDataStartPayload,
      RawDataErrorPayload, RawDataChunkPayload, RawDataReportPayload,
      CapabilityActionType.toU8, TimeSyncType.toU8, RawDataActionType.toU8] at hsub
    simp only [Kind.accepts, Kind.allows, Bool.and_eq_true, decide_eq_true_eq,
      beq_iff_eq] at hacc
    simp [selectKind, kinds, MessageType.toU8, subMatches, byteSpan, slotOf, layout, fmTypes,
      Member.placeAll, Member.place, Cursor.close, CType.bytes, ConnPacketHeader,
      CapabilityEntry, CapabilityHeader, CapabilityRequestedMessage, CapabilityEntryMessage,
      CapabilityEndMessage, TimeSyncHeader, TimeSyncInitial, TimeSyncInterNetwork,
      TimeSyncInitialReply, TimeSyncCorrection, TimeSyncCorrectionReply, RawDataHeader,
      RawDataStartPayload, RawDataErrorPayload, RawDataChunkPayload, RawDataReportPayload,
      CapabilityActionType.toU8, TimeSyncType.toU8, RawDataActionType.toU8, Kind.accepts,
      Kind.allows, hsub, hacc]
    first
    | done
    | (split_ifs <;> rfl)
    | (simp only [SIZEOF_CONN_PACKET_CLUSTER_WELCOME,
        SIZEOF_CONN_PACKET_CLUSTER_WELCOME_WITH_NETWORK_ID, SIZEOF_CONN_PACKET_HEADER,
        SIZEOF_CONN_PACKET_PAYLOAD_CLUSTER_WELCOME,
        SIZEOF_CONN_PACKET_PAYLOAD_CLUSTER_WELCOME_WITH_NETWORK_ID] at hacc ⊢
       have hl : bytes.length = 16 := by omega
       simp [hl])

/-- A byte stream whose first byte is the tag of no message kind is an unknown type, and
the error carries the tag and the bytes. -/
theorem decode_unknown (w : FmTypes) (MAX_DATA_SIZE_PER_WRITE tag : Nat) (rest : List Nat)
    (h : ∀ k ∈ kinds MAX_DATA_SIZE_PER_WRITE, k.tag.toU8 ≠ tag) :
    decode w MAX_DATA_SIZE_PER_WRITE (tag :: rest) = .error (.UnknownType tag (tag :: rest)) := by
  have hnil : (kinds MAX_DATA_SIZE_PER_WRITE).filter (fun k => k.tag.toU8 == tag) = [] := by
    rw [List.filter_eq_nil_iff]
    intro k hk
    simpa using h k hk
  simp [decode, selectKind, hnil]

/-! ## Round trip -/

/-- C13: round trip. With the widths of `fmTypes`, a write size of at least 12 bytes and
a 7-byte asset service data payload:
for every struct the header asserts a size for and every payload whose fields fit their
declared widths, the record written field by field in declaration order, with packing 1
and no padding, is as long as the asserted size and is read back unchanged through the
packed layout;
for every message kind, every fitting payload of that kind and every trailing span the
kind allows, `decode (encode (kind, payload))` is the kind, the payload and the span, and
the encoding is as long as the documented size plus the span; a first byte that is no
known tag decodes to the unknown type error with the tag and the bytes, and no bytes at
all to a truncation;
the bytes are the fields in declaration order, lowest byte and lowest bit first: the first
byte of every message is its tag, and the last conjunct gives the bytes of a header
(tag, sender, receiver) and of records with 1-, 2-, 5-, 6- and 24-bit fields at given
values. -/
theorem decode_encode_round_trip (w : FmTypes)
    (MAX_DATA_SIZE_PER_WRITE SIZEOF_ADV_STRUCTURE_ASSET_SERVICE_DATA_PAYLOAD : Nat)
    (hw : w = fmTypes) (hMax : 12 ≤ MAX_DATA_SIZE_PER_WRITE)
    (hAdv : SIZEOF_ADV_STRUCTURE_ASSET_SERVICE_DATA_PAYLOAD = 7) :
    (∀ a ∈ sizeAssertions MAX_DATA_SIZE_PER_WRITE SIZEOF_ADV_STRUCTURE_ASSET_SERVICE_DATA_PAYLOAD,
      ∀ p : Payload, Fits (layout w a.1) p →
        decodeRecord w a.1 (encodeRecord w a.1 p) = some p
        ∧ (encodeRecord w a.1 p).length = a.2
        ∧ STATIC_ASSERT_SIZE w a.1 a.2)
    ∧ (∀ k ∈ kinds MAX_DATA_SIZE_PER_WRITE, ∀ (p : Payload) (span : List Nat),
        Fits (layout w k.fixed) p → Tagged w k p → k.allows span.length = true →
          decode w MAX_DATA_SIZE_PER_WRITE (encode w k p span) = .ok ⟨k, p, span⟩
          ∧ (encode w k p span).length = k.size + span.length
          ∧ (encode w k p span).head? = some k.tag.toU8)
    ∧ (∀ (tag : Nat) (rest : List Nat),
        (∀ k ∈ kinds MAX_DATA_SIZE_PER_WRITE, k.tag.toU8 ≠ tag) →
          decode w MAX_DATA_SIZE_PER_WRITE (tag :: rest) =
            .error (.UnknownType tag (tag :: rest)))
    ∧ decode w MAX_DATA_SIZE_PER_WRITE [] = .error .Truncated
    ∧ (encodeRecord fmTypes ConnPacketHeader [[20], [0x0102], [0x0304]] = [20, 2, 1, 4, 3]
      ∧ encodeRecord fmTypes ConnPacketPayloadClusterInfoUpdate
          [[0x04030201], [0x0605], [0x0807], [1], [0], [63]] =
          [1, 2, 3, 4, 5, 6, 7, 8, 1 + 2 * 0 + 4 * 63]
      ∧ encodeRecord fmTypes ConnPacketEncryptCustomStart
          [[25], [0x0102], [0x0304], [1], [0x08070605], [2], [33]] =
          [25, 2, 1, 4, 3, 1, 5, 6, 7, 8, 2 + 4 * 33]
      ∧ encodeRecord fmTypes RawDataStartPayload [[0x030201], [2], [0x07060504], []] =
          [1, 2, 3, 2, 4, 5, 6, 7]
      ∧ encodeRecord fmTypes StandstillAssetMessageEntry
          [[1], [0], [1], [31], [0x0201], [200], [3]] =
          [1 + 2 * 0 + 4 * 1 + 8 * 31, 1, 2, 200, 3]) := by
  subst hw hAdv
  refine ⟨?_, ?_, ?_, rfl, ?_⟩
  · intro a ha p hfit
    obtain ⟨hpad, hsize⟩ := sizeAssertions_hold MAX_DATA_SIZE_PER_WRITE hMax a ha
    obtain ⟨hback, hlen⟩ := decodeRecord_encodeRecord fmTypes a.1 p hpad hfit
    exact ⟨hback, hlen.trans hsize, hsize⟩
  · intro k hk p span hfit htag hspan
    obtain ⟨hpad, hsize, hpos, hs, hsub⟩ := kinds_ok MAX_DATA_SIZE_PER_WRITE hMax k hk
    obtain ⟨rest, hrest⟩ := encode_head fmTypes k p span hpad hsize hpos hfit htag hs
    refine ⟨?_, encode_length fmTypes k p span hpad hsize hfit, by rw [hrest]; rfl⟩
    have hacc : k.accepts (encode fmTypes k p span).length = true := by
      rw [encode_length fmTypes k p span hpad hsize hfit]
      simp [Kind.accepts, hspan]
    have hsel := selectKind_ok MAX_DATA_SIZE_PER_WRITE k hk (encode fmTypes k p span)
      (subMatches_encode fmTypes k p span hpad hsize hfit htag hsub) hacc
    have hdec := decodeAs_encode fmTypes k p span hpad hsize hfit hspan
    rw [hrest] at hsel hdec ⊢
    simp only [decode, hsel, hdec]
  · intro tag rest h
    exact decode_unknown fmTypes MAX_DATA_SIZE_PER_WRITE tag rest h
  · decide

/-- C13 at a write size of 20 bytes, for a raw data chunk from node 1 to node 2, module 7,
request handle 3, chunk 70000, with the two payload bytes 170 and 187 as trailing span:
the encoding is the 12 bytes of the fixed record followed by the span, 14 bytes, and
decodes to the same kind, payload and span. -/
theorem decode_encode_round_trip_witness :
    (fmTypes = fmTypes ∧ 12 ≤ 20 ∧ 7 = 7)
    ∧ encode fmTypes
          ⟨"RawDataChunk", .MODULE_RAW_DATA, "connHeader.messageType",
            some ("actionType", RawDataActionType.CHUNK.toU8),
            RawDataHeader ++ RawDataChunkPayload.dropLast,
            SIZEOF_CONN_PACKET_MODULE + SIZEOF_RAW_DATA_CHUNK_PAYLOAD, .any⟩
          [[54], [1], [2], [7], [3], [2], [70000], [0]] [170, 187] =
        [54, 1, 0, 2, 0, 7, 3, 2, 112, 17, 1, 0, 170, 187]
    ∧ decode fmTypes 20
          (encode fmTypes
            ⟨"RawDataChunk", .MODULE_RAW_DATA, "connHeader.messageType",
              some ("actionType", RawDataActionType.CHUNK.toU8),
              RawDataHeader ++ RawDataChunkPayload.dropLast,
              SIZEOF_CONN_PACKET_MODULE + SIZEOF_RAW_DATA_CHUNK_PAYLOAD, .any⟩
            [[54], [1], [2], [7], [3], [2], [70000], [0]] [170, 187]) =
        .ok ⟨⟨"RawDataChunk", .MODULE_RAW_DATA, "connHeader.messageType",
              some ("actionType", RawDataActionType.CHUNK.toU8),
              RawDataHeader ++ RawDataChunkPayload.dropLast,
              SIZEOF_CONN_PACKET_MODULE + SIZEOF_RAW_DATA_CHUNK_PAYLOAD, .any⟩,
            [[54], [1], [2], [7], [3], [2], [70000], [0]], [170, 187]⟩
    ∧ decode fmTypes 20 [200, 1, 2] = .error (.UnknownType 200 [200, 1, 2]) :=
  have t := decode_encode_round_trip fmTypes 20 7 rfl (by decide) rfl
  have r := t.2.1
    ⟨"RawDataChunk", .MODULE_RAW_DATA, "connHeader.messageType",
      some ("actionType", RawDataActionType.CHUNK.toU8),
      RawDataHeader ++ RawDataChunkPayload.dropLast,
      SIZEOF_CONN_PACKET_MODULE + SIZEOF_RAW_DATA_CHUNK_PAYLOAD, .any⟩
    (by simp [kinds]) [[54], [1], [2], [7], [3], [2], [70000], [0]] [170, 187]
    (by
      simp [Fits, layout, fmTypes, RawDataHeader, RawDataChunkPayload, ConnPacketHeader,
        Member.placeAll, Member.place, Cursor.close, CType.bytes])
    (by
      simp [Tagged, fieldValue, layout, fmTypes, RawDataHeader, RawDataChunkPayload,
        ConnPacketHeader, Member.placeAll, Member.place, Cursor.close, CType.bytes,
        MessageType.toU8, RawDataActionType.toU8])
    rfl
  ⟨⟨rfl, by decide, rfl⟩, by decide, r.1,
    t.2.2.1 200 [1, 2] (by
      intro k hk
      simp only [kinds, List.mem_cons, List.mem_singleton, List.not_mem_nil, or_false] at hk
      rcases hk with h | h | h | h | h | h | h | h | h | h | h | h | h | h | h | h | h | h | h
        | h | h | h | h | h | h | h | h | h | h | h | h | h | h | h | h | h | h | h
      all_goals
        subst h
        decide)⟩

end FruityMesh
